import Mathlib

/-!
# Native launcher (`windows/runner/main.cpp`)

A shallow embedding of the two functions of `main.cpp`:

* `WriteNativeCrashLog` — the best-effort crash logger;
* `wWinMain` — the process entry point: console attach, single-instance mutex,
  COM initialisation, project construction, window creation, message loop, and
  the two `catch` handlers around all of it.

The program only talks to its environment, so the embedding is explicit state
passing over an environment record `Env`: the record holds what every call that
leaves the file answers in one run, the state holds the sequence of calls made so
far and the file system.

Conventions of the model.

* A Win32 API function is a C function: it returns a value (structured exceptions
  of the operating system are outside what a C++ `catch` is defined to receive, and
  are not modelled).  A call into the C++ code of the runner or of the framework
  (`DartProject`, `GetCommandLineArguments`, `set_dart_entrypoint_arguments`,
  `FlutterWindow`, `Create`, `SetQuitOnClose`), and `DispatchMessage`, which runs the
  window procedure, either returns or raises a fault.  A fault is a `std::exception`
  carrying its `what()` text, or anything else (what `catch (...)` receives).
* `CreateAndAttachConsole` is runner code outside this file; it is modelled from the
  specification, which gives the console step as non-fatal either way: the call
  returns, with or without a console.
* The parameters of `wWinMain` (`instance`, `prev`, `command_line`, `show_command`)
  are not used by its body and are left out.
* The crash logger and `MessageBoxA` return normally: storage exhaustion inside a
  `std::string` is not modelled, and the log stream is used with its default
  (non-throwing) error state.
* A file is the text written through text-mode streams; once the log file is open
  the insertions into the stream are taken to succeed.
* `GetMessage` blocks while the queue is empty.  A run is given the finite list of
  messages it will ever receive; when the list is used up without a quit message
  the run never returns.
-/

namespace Runner

/-! ## Constants of the C runtime and of the Windows SDK -/

/-- Value of `EXIT_SUCCESS` in `<stdlib.h>`. -/
def EXIT_SUCCESS : Int := 0

/-- Value of `EXIT_FAILURE` in `<stdlib.h>`. -/
def EXIT_FAILURE : Int := 1

/-- Message-box style bit `MB_OK` of `<winuser.h>`. -/
def MB_OK : Nat := 0x00

/-- Message-box style bit `MB_ICONERROR` of `<winuser.h>`. -/
def MB_ICONERROR : Nat := 0x10

/-- The `SUCCEEDED` test of `<winerror.h>` on an `HRESULT` (a signed 32-bit value): non-negative. -/
def SUCCEEDED (hr : Int) : Bool := decide (0 ≤ hr)

/-- The `FAILED` test of `<winerror.h>` on an `HRESULT`: negative. -/
def FAILED (hr : Int) : Bool := decide (hr < 0)

/-! ## Data model -/

/-- What a `catch` handler of `wWinMain` can receive. -/
inductive Fault where
  /-- An object derived from `std::exception`, with the text of `what()`. -/
  | stdException (what : String)
  /-- Anything else, received by `catch (...)`. -/
  | other
  deriving DecidableEq, Repr

/-- Answer of a call that may raise. -/
inductive Outcome (α : Type) where
  | ret (a : α)
  | raise (f : Fault)
  deriving DecidableEq, Repr

/-- The fields of `SYSTEMTIME` (each a 16-bit `WORD`). -/
structure SYSTEMTIME where
  wYear : Nat
  wMonth : Nat
  wDayOfWeek : Nat
  wDay : Nat
  wHour : Nat
  wMinute : Nat
  wSecond : Nat
  wMilliseconds : Nat
  deriving DecidableEq, Repr

/-- The message structure filled by `GetMessage`. -/
structure MSG where
  hwnd : Nat
  message : Nat
  wParam : Nat
  lParam : Int
  deriving DecidableEq, Repr

/-- The directories that exist and the text of the files that exist. -/
structure FileSystem where
  dirs : String → Bool
  files : String → Option String

/-- What the environment answers to the calls of one `WriteNativeCrashLog`. -/
structure CrashLogEnv where
  /-- The `HRESULT` of `SHGetFolderPathA(NULL, CSIDL_PERSONAL, NULL, 0, path)`. -/
  folderResult : Int
  /-- The text left in `path` by that call. -/
  folderPath : String
  /-- Whether `CreateDirectoryA` creates the directory (it does not when the
  directory exists already, or cannot be created). -/
  directoryCreated : Bool
  /-- Whether the stream opened in append mode `is_open()`. -/
  opens : Bool
  /-- The time stored by `GetLocalTime`. -/
  localTime : SYSTEMTIME

/-- What `CreateMutex` can answer: a fresh handle, a handle to a mutex that
existed already (`GetLastError() == ERROR_ALREADY_EXISTS`), or `NULL`. -/
inductive MutexResult where
  | created (handle : Nat)
  | alreadyExists (handle : Nat)
  | null
  deriving DecidableEq, Repr

/-- One turn of the message queue: what `GetMessage` returns and stores, and how
`DispatchMessage` on the stored message ends. -/
structure QueueItem where
  result : Int
  msg : MSG
  dispatch : Outcome Unit

/-- What the environment answers during one run of `wWinMain`. -/
structure Env where
  /-- The `BOOL` of `AttachConsole(ATTACH_PARENT_PROCESS)`. -/
  attachConsole : Int
  /-- The `BOOL` of `IsDebuggerPresent()`. -/
  isDebuggerPresent : Int
  /-- Whether `CreateAndAttachConsole` obtains a console (the call returns either way). -/
  consoleAllocated : Bool
  createMutex : MutexResult
  /-- The `HRESULT` of `CoInitializeEx`. -/
  coInitializeEx : Int
  dartProject : Outcome Unit
  getCommandLineArguments : Outcome (List String)
  setDartEntrypointArguments : Outcome Unit
  flutterWindow : Outcome Unit
  windowCreate : Outcome Bool
  setQuitOnClose : Outcome Unit
  /-- The messages the run will ever receive, in order. -/
  queue : List QueueItem
  crashLog : CrashLogEnv

/-- A call that leaves `main.cpp`, with its arguments. -/
inductive Event where
  | attachConsole
  | isDebuggerPresent
  | createAndAttachConsole
  | createMutex (name : String)
  | coInitializeEx
  | dartProject (path : String)
  | getCommandLineArguments
  | setDartEntrypointArguments (args : List String)
  | flutterWindow
  | windowCreate (title : String) (x y width height : Nat)
  | setQuitOnClose (quit : Bool)
  | getMessage
  | translateMessage (msg : MSG)
  | dispatchMessage (msg : MSG)
  | coUninitialize
  | writeNativeCrashLog (errorMsg : String)
  | messageBox (text caption : String) (style : Nat)
  deriving DecidableEq, Repr

/-- The program state: the calls made so far, oldest first, and the file system. -/
structure State where
  trace : List Event
  fs : FileSystem

/-- Record one more call. -/
def State.call (st : State) (e : Event) : State :=
  { st with trace := st.trace ++ [e] }

/-! ## `WriteNativeCrashLog` -/

/-- Insertion of a `WORD` into a stream with default flags: decimal, no width, no fill. -/
def showWORD (w : Nat) : String := Nat.repr w

/-- The text inserted into the log stream by the one `<<` chain of `WriteNativeCrashLog`
(`std::endl` inserts a newline and flushes). -/
def crashRecord (lt : SYSTEMTIME) (errorMsg : String) : String :=
  "[" ++ showWORD lt.wYear ++ "-" ++ showWORD lt.wMonth ++ "-" ++ showWORD lt.wDay ++ " "
    ++ showWORD lt.wHour ++ ":" ++ showWORD lt.wMinute ++ ":" ++ showWORD lt.wSecond ++ "] "
    ++ "NATIVE CRASH: " ++ errorMsg ++ "\n" ++ "\n"

/-- Effect of `CreateDirectoryA(dirPath, NULL)`; its return value is not looked at. -/
def CreateDirectoryA (created : Bool) (dirPath : String) (fs : FileSystem) : FileSystem :=
  if created then { fs with dirs := fun d => if d = dirPath then true else fs.dirs d } else fs

/-- Writing `text` to a stream opened on `path` with `std::ios::app`: the file is
created empty when absent, and the text goes after what it holds. -/
def appendFile (path text : String) (fs : FileSystem) : FileSystem :=
  { fs with files := fun p => if p = path then some ((fs.files path).getD "" ++ text) else fs.files p }

/-- The function `WriteNativeCrashLog` of `main.cpp`. -/
def WriteNativeCrashLog (env : CrashLogEnv) (errorMsg : String) (fs : FileSystem) : FileSystem :=
  if SUCCEEDED env.folderResult then
    let dirPath := env.folderPath ++ "\\IoT DevKit"
    let fs1 := CreateDirectoryA env.directoryCreated dirPath fs
    let logPath := dirPath ++ "\\crash_native.txt"
    if env.opens then
      appendFile logPath (crashRecord env.localTime errorMsg) fs1
    else fs1
  else fs

/-! ## `wWinMain` -/

/-- A call of `WriteNativeCrashLog(errorMsg)`. -/
def logCrash (env : CrashLogEnv) (errorMsg : String) (st : State) : State :=
  { trace := st.trace ++ [Event.writeNativeCrashLog errorMsg],
    fs := WriteNativeCrashLog env errorMsg st.fs }

/-- Modelled from the spec: `CreateAndAttachConsole` is a helper of the runner (`utils.cpp`)
whose body is not part of this file; the specification says of it "allocate and attach a
fresh console" and of the console step "Non-fatal either way".  The call is recorded
and returns, whether or not a console was obtained. -/
def CreateAndAttachConsole (_allocated : Bool) (st : State) : State :=
  st.call Event.createAndAttachConsole

/-- The console statement at the top of the `try` block:
`if (!::AttachConsole(ATTACH_PARENT_PROCESS) && ::IsDebuggerPresent()) CreateAndAttachConsole();`
(`&&` evaluates its right operand only when the left one holds). -/
def consoleStep (env : Env) (st : State) : State :=
  let st := st.call Event.attachConsole
  if env.attachConsole = 0 then
    let st := st.call Event.isDebuggerPresent
    if env.isDebuggerPresent ≠ 0 then CreateAndAttachConsole env.consoleAllocated st else st
  else st

/-- How the message loop ends. -/
inductive LoopEnd where
  /-- `GetMessage` returned 0. -/
  | quit
  /-- A fault left `DispatchMessage`. -/
  | threw (f : Fault)
  /-- `GetMessage` does not return: the queue stays empty. -/
  | blocked
  deriving DecidableEq, Repr

/-- The loop
`while (::GetMessage(&msg, nullptr, 0, 0)) { ::TranslateMessage(&msg); ::DispatchMessage(&msg); }`. -/
def messageLoop : List QueueItem → State → State × LoopEnd
  | [], st => (st.call Event.getMessage, LoopEnd.blocked)
  | q :: rest, st =>
    let st := st.call Event.getMessage
    if q.result ≠ 0 then
      let st := st.call (Event.translateMessage q.msg)
      let st := st.call (Event.dispatchMessage q.msg)
      match q.dispatch with
      | Outcome.ret _ => messageLoop rest st
      | Outcome.raise f => (st, LoopEnd.threw f)
    else (st, LoopEnd.quit)

/-- How the `try` block of `wWinMain` ends. -/
inductive TryEnd where
  /-- A `return` statement was reached. -/
  | returned (code : Int)
  /-- A fault left the block. -/
  | threw (f : Fault)
  /-- The message loop waits for ever. -/
  | blocked
  deriving DecidableEq, Repr

/-- The `try` block of `wWinMain`. -/
def wWinMainTry (env : Env) (st : State) : State × TryEnd :=
  let st := consoleStep env st
  let st := st.call (Event.createMutex "IoTDevKit_Instance_Mutex")
  let st := st.call Event.coInitializeEx
  if FAILED env.coInitializeEx then
    (logCrash env.crashLog "Failed to CoInitializeEx" st, TryEnd.returned EXIT_FAILURE)
  else
    let st := st.call (Event.dartProject "data")
    match env.dartProject with
    | Outcome.raise f => (st, TryEnd.threw f)
    | Outcome.ret _ =>
    let st := st.call Event.getCommandLineArguments
    match env.getCommandLineArguments with
    | Outcome.raise f => (st, TryEnd.threw f)
    | Outcome.ret command_line_arguments =>
    let st := st.call (Event.setDartEntrypointArguments command_line_arguments)
    match env.setDartEntrypointArguments with
    | Outcome.raise f => (st, TryEnd.threw f)
    | Outcome.ret _ =>
    let st := st.call Event.flutterWindow
    match env.flutterWindow with
    | Outcome.raise f => (st, TryEnd.threw f)
    | Outcome.ret _ =>
    let st := st.call (Event.windowCreate "iot_devkit" 10 10 1280 720)
    match env.windowCreate with
    | Outcome.raise f => (st, TryEnd.threw f)
    | Outcome.ret false =>
      (logCrash env.crashLog "Failed to create Flutter window" st, TryEnd.returned EXIT_FAILURE)
    | Outcome.ret true =>
    let st := st.call (Event.setQuitOnClose true)
    match env.setQuitOnClose with
    | Outcome.raise f => (st, TryEnd.threw f)
    | Outcome.ret _ =>
    match messageLoop env.queue st with
    | (st, LoopEnd.threw f) => (st, TryEnd.threw f)
    | (st, LoopEnd.blocked) => (st, TryEnd.blocked)
    | (st, LoopEnd.quit) =>
      let st := st.call Event.coUninitialize
      (st, TryEnd.returned EXIT_SUCCESS)

/-- A run of `wWinMain`: the calls made, the file system left behind, and the exit
code (`none` when the run does not return). -/
structure Run where
  trace : List Event
  fs : FileSystem
  exit : Option Int

/-- The function `wWinMain` of `main.cpp`: the `try` block and its two handlers. -/
def wWinMain (env : Env) (fs : FileSystem) : Run :=
  match wWinMainTry env { trace := [], fs := fs } with
  | (st, TryEnd.returned code) => { trace := st.trace, fs := st.fs, exit := some code }
  | (st, TryEnd.blocked) => { trace := st.trace, fs := st.fs, exit := none }
  | (st, TryEnd.threw (Fault.stdException what)) =>
    let st := logCrash env.crashLog ("std::exception: " ++ what) st
    let st := st.call (Event.messageBox what "IoT DevKit Native Crash" (MB_OK ||| MB_ICONERROR))
    { trace := st.trace, fs := st.fs, exit := some EXIT_FAILURE }
  | (st, TryEnd.threw Fault.other) =>
    let st := logCrash env.crashLog "Unknown C++ Exception (SEH or other)" st
    let st := st.call (Event.messageBox "Unknown Fatal Native Error" "IoT DevKit Native Crash"
      (MB_OK ||| MB_ICONERROR))
    { trace := st.trace, fs := st.fs, exit := some EXIT_FAILURE }

/-! ## Sample environments -/

/-- A local time: 5 January 2024, 03:04:05. -/
def sampleTime : SYSTEMTIME :=
  { wYear := 2024, wMonth := 1, wDayOfWeek := 5, wDay := 5, wHour := 3, wMinute := 4, wSecond := 5,
    wMilliseconds := 0 }

/-- A logger environment in which the documents folder resolves and the log file opens. -/
def sampleLog : CrashLogEnv :=
  { folderResult := 0, folderPath := "C:\\Users\\u\\Documents", directoryCreated := true,
    opens := true, localTime := sampleTime }

/-- An empty disk. -/
def emptyFS : FileSystem := { dirs := fun _ => false, files := fun _ => none }

/-- A keyboard message. -/
def keyMsg : MSG := { hwnd := 1, message := 0x100, wParam := 65, lParam := 0 }

/-- The quit message. -/
def quitMsg : MSG := { hwnd := 0, message := 0x12, wParam := 0, lParam := 0 }

/-- A run in which every step succeeds: one message is dispatched, then the quit message arrives. -/
def sampleEnv : Env :=
  { attachConsole := 0, isDebuggerPresent := 1, consoleAllocated := true,
    createMutex := MutexResult.created 7, coInitializeEx := 0,
    dartProject := Outcome.ret (), getCommandLineArguments := Outcome.ret ["--verbose", "a b"],
    setDartEntrypointArguments := Outcome.ret (), flutterWindow := Outcome.ret (),
    windowCreate := Outcome.ret true, setQuitOnClose := Outcome.ret (),
    queue := [{ result := 1, msg := keyMsg, dispatch := Outcome.ret () },
              { result := 0, msg := quitMsg, dispatch := Outcome.ret () }],
    crashLog := sampleLog }

/-- A logger environment in which the documents folder resolves but the log file cannot be
opened (the folder is not writable). -/
def lockedLog : CrashLogEnv :=
  { sampleLog with directoryCreated := false, opens := false }

/-- A disk on which the log file holds one earlier record. -/
def oldLogFS : FileSystem :=
  { dirs := fun d => decide (d = "C:\\Users\\u\\Documents\\IoT DevKit"),
    files := fun p =>
      if p = "C:\\Users\\u\\Documents\\IoT DevKit\\crash_native.txt" then
        some "[2023-12-31 23:59:59] NATIVE CRASH: earlier\n\n"
      else none }

/-- A run in which `CoInitializeEx` answers `RPC_E_CHANGED_MODE` (0x80010106). -/
def comFailEnv : Env :=
  { sampleEnv with coInitializeEx := -2147417850 }

/-- A run in which `CoInitializeEx` fails and the log file cannot be opened. -/
def comFailLockedEnv : Env :=
  { comFailEnv with crashLog := lockedLog }

/-- A run in which `window.Create` answers `false`. -/
def createFailEnv : Env :=
  { sampleEnv with windowCreate := Outcome.ret false }

/-- A run in which the `FlutterWindow` constructor throws a `std::exception`. -/
def stdFaultEnv : Env :=
  { sampleEnv with flutterWindow := Outcome.raise (Fault.stdException "engine failed") }

/-- A run in which the dispatch of the first message throws something that is not a
`std::exception`. -/
def otherFaultEnv : Env :=
  { sampleEnv with queue := [{ result := 1, msg := keyMsg, dispatch := Outcome.raise Fault.other }] }

/-! ## Classes of environments

The claims speak of runs by what the environment does in them.  These predicates
say it on the environment itself. -/

/-- The calls of the loop for messages that are dispatched: for each one `GetMessage`,
`TranslateMessage`, `DispatchMessage`. -/
def loopTrace (items : List QueueItem) : List Event :=
  items.flatMap fun m => [Event.getMessage, Event.translateMessage m.msg, Event.dispatchMessage m.msg]

/-- Every item is a message (`GetMessage` nonzero) whose dispatch returns. -/
def AllDispatched (items : List QueueItem) : Prop :=
  ∀ m ∈ items, m.result ≠ 0 ∧ m.dispatch = Outcome.ret ()

/-- The queue delivers a quit message, after messages that are all dispatched without a fault. -/
def QuitReceived (queue : List QueueItem) : Prop :=
  ∃ pre q post, queue = pre ++ q :: post ∧ AllDispatched pre ∧ q.result = 0

/-- The dispatch of some message raises `f`, after messages that are all dispatched without a fault. -/
def DispatchRaises (queue : List QueueItem) (f : Fault) : Prop :=
  ∃ pre q post, queue = pre ++ q :: post ∧ AllDispatched pre ∧ q.result ≠ 0 ∧
    q.dispatch = Outcome.raise f

/-- COM initialisation succeeds and the project, the argument list and the window
object are built without a fault: the run gets to `window.Create`. -/
def ReachesCreate (env : Env) : Prop :=
  FAILED env.coInitializeEx = false ∧ env.dartProject = Outcome.ret () ∧
    (∃ args, env.getCommandLineArguments = Outcome.ret args) ∧
    env.setDartEntrypointArguments = Outcome.ret () ∧ env.flutterWindow = Outcome.ret ()

/-- The run gets to the message loop. -/
def ReachesLoop (env : Env) : Prop :=
  ReachesCreate env ∧ env.windowCreate = Outcome.ret true ∧ env.setQuitOnClose = Outcome.ret ()

/-- Everything succeeds, no step raises, and the loop ends on a quit message. -/
def NormalQuit (env : Env) : Prop :=
  ReachesLoop env ∧ QuitReceived env.queue

/-- Failure category (a), first case: `CoInitializeEx` returns a failure code. -/
def ComInitFails (env : Env) : Prop :=
  FAILED env.coInitializeEx = true

/-- Failure category (a), second case: `window.Create` returns `false`. -/
def WindowCreateFails (env : Env) : Prop :=
  ReachesCreate env ∧ env.windowCreate = Outcome.ret false

/-- Some step of the `try` block raises `f`, and every step before it completes
(failure category (b) when `f` is a `std::exception`, (c) otherwise). -/
def Raises (env : Env) (f : Fault) : Prop :=
  FAILED env.coInitializeEx = false ∧
  (env.dartProject = Outcome.raise f ∨ env.dartProject = Outcome.ret () ∧
  (env.getCommandLineArguments = Outcome.raise f ∨
    (∃ args, env.getCommandLineArguments = Outcome.ret args) ∧
  (env.setDartEntrypointArguments = Outcome.raise f ∨
    env.setDartEntrypointArguments = Outcome.ret () ∧
  (env.flutterWindow = Outcome.raise f ∨ env.flutterWindow = Outcome.ret () ∧
  (env.windowCreate = Outcome.raise f ∨ env.windowCreate = Outcome.ret true ∧
  (env.setQuitOnClose = Outcome.raise f ∨ env.setQuitOnClose = Outcome.ret () ∧
    DispatchRaises env.queue f))))))

/-- The run gets to the loop and the loop never sees a quit message. -/
def WaitsForEver (env : Env) : Prop :=
  ReachesLoop env ∧ AllDispatched env.queue

/-- The calls of the console statement. -/
def consoleTrace (env : Env) : List Event :=
  (consoleStep env { trace := [], fs := emptyFS }).trace

/-- The calls every run starts with: the console statement, `CreateMutex`, `CoInitializeEx`. -/
def prefixTrace (env : Env) : List Event :=
  consoleTrace env ++ [Event.createMutex "IoTDevKit_Instance_Mutex", Event.coInitializeEx]

/-- The calls from project construction to window creation when none of them raises. -/
def buildTrace (args : List String) : List Event :=
  [Event.dartProject "data", Event.getCommandLineArguments, Event.setDartEntrypointArguments args,
    Event.flutterWindow, Event.windowCreate "iot_devkit" 10 10 1280 720]

/-- Whether a call is a call of `WriteNativeCrashLog`. -/
def Event.isCrashLog : Event → Bool
  | Event.writeNativeCrashLog _ => true
  | _ => false

/-- Whether a call is a call of `MessageBoxA`. -/
def Event.isMessageBox : Event → Bool
  | Event.messageBox _ _ _ => true
  | _ => false

/-- Whether a call passes the argument list to the project. -/
def Event.isSetArguments : Event → Bool
  | Event.setDartEntrypointArguments _ => true
  | _ => false

/-- Whether a call belongs to window creation: the `FlutterWindow` object or `Create`. -/
def Event.isWindowCreation : Event → Bool
  | Event.flutterWindow => true
  | Event.windowCreate _ _ _ _ _ => true
  | _ => false

/-- Whether a call is one of the steps of the `try` block that come after COM
initialisation: project, arguments, window, message loop, `CoUninitialize`. -/
def Event.isBodyStep : Event → Bool
  | Event.dartProject _ => true
  | Event.getCommandLineArguments => true
  | Event.setDartEntrypointArguments _ => true
  | Event.flutterWindow => true
  | Event.windowCreate _ _ _ _ _ => true
  | Event.setQuitOnClose _ => true
  | Event.getMessage => true
  | Event.translateMessage _ => true
  | Event.dispatchMessage _ => true
  | Event.coUninitialize => true
  | _ => false

/-- Whether a call is one of the steps every run starts with: the console
statement, `CreateMutex`, `CoInitializeEx`. -/
def Event.isStartup : Event → Bool
  | Event.attachConsole => true
  | Event.isDebuggerPresent => true
  | Event.createAndAttachConsole => true
  | Event.createMutex _ => true
  | Event.coInitializeEx => true
  | _ => false

/-! ## Notions used in the claims on the crash log -/

/-- The log file, as the specification names it: `<documents>\IoT DevKit\crash_native.txt`. -/
def crashLogPath (documents : String) : String :=
  documents ++ "\\IoT DevKit\\crash_native.txt"

/-- The number a string of decimal digits stands for, read from the left. -/
def decimalValue (s : String) : Nat :=
  s.data.foldl (fun acc c => 10 * acc + (c.toNat - '0'.toNat)) 0

/-- A string contains `needle`. -/
def Contains (s needle : String) : Prop :=
  ∃ l r, s = l ++ needle ++ r

/-- Between `before` and `after` one record was added at the end of the log file of
`log`, stamped with the local time of `log`, and its message contains `needle`. -/
def EntryAppended (log : CrashLogEnv) (needle : String) (before after : FileSystem) : Prop :=
  ∃ errorMsg, Contains errorMsg needle ∧
    after.files (crashLogPath log.folderPath) =
      some ((before.files (crashLogPath log.folderPath)).getD "" ++
        crashRecord log.localTime errorMsg)

/-- A sequence of calls of `WriteNativeCrashLog`, each with what the environment
answers to it and with its message, in one run or over several runs. -/
def writeCrashLogs : List (CrashLogEnv × String) → FileSystem → FileSystem
  | [], fs => fs
  | (log, errorMsg) :: rest, fs => writeCrashLogs rest (WriteNativeCrashLog log errorMsg fs)

/-- The call resolves the documents folder, its log file is `path`, and the file opens. -/
def reachesFile (path : String) (call : CrashLogEnv × String) : Bool :=
  SUCCEEDED call.1.folderResult && call.1.opens && decide (crashLogPath call.1.folderPath = path)

/-- The records of a sequence of calls, one after the other in call order. -/
def recordsText : List (CrashLogEnv × String) → String
  | [] => ""
  | call :: rest => crashRecord call.1.localTime call.2 ++ recordsText rest

/-- Whether a call is one that the source places after `set_dart_entrypoint_arguments`:
window, message loop, `CoUninitialize`, logger, message box. -/
def Event.isAfterArguments : Event → Bool
  | Event.flutterWindow => true
  | Event.windowCreate _ _ _ _ _ => true
  | Event.setQuitOnClose _ => true
  | Event.getMessage => true
  | Event.translateMessage _ => true
  | Event.dispatchMessage _ => true
  | Event.coUninitialize => true
  | Event.writeNativeCrashLog _ => true
  | Event.messageBox _ _ _ => true
  | _ => false

/-! ## Lemmas on the message loop -/

theorem messageLoop_quit (pre : List QueueItem) (q : QueueItem) (post : List QueueItem)
    (st : State) (hpre : AllDispatched pre) (hq : q.result = 0) :
    messageLoop (pre ++ q :: post) st =
      ({ trace := st.trace ++ loopTrace pre ++ [Event.getMessage], fs := st.fs }, LoopEnd.quit) := by
  induction pre generalizing st with
  | nil => simp [messageLoop, hq, State.call, loopTrace]
  | cons m pre ih =>
    have hm := hpre m (List.mem_cons_self _ _)
    have hrest : AllDispatched pre := fun x hx => hpre x (List.mem_cons_of_mem _ hx)
    simp [messageLoop, hm.1, hm.2, State.call, ih _ hrest, loopTrace]

theorem messageLoop_raise (pre : List QueueItem) (q : QueueItem) (post : List QueueItem)
    (st : State) (f : Fault) (hpre : AllDispatched pre) (hq : q.result ≠ 0)
    (hf : q.dispatch = Outcome.raise f) :
    messageLoop (pre ++ q :: post) st =
      ({ trace := st.trace ++ loopTrace pre ++
          [Event.getMessage, Event.translateMessage q.msg, Event.dispatchMessage q.msg],
         fs := st.fs }, LoopEnd.threw f) := by
  induction pre generalizing st with
  | nil => simp [messageLoop, hq, hf, State.call, loopTrace]
  | cons m pre ih =>
    have hm := hpre m (List.mem_cons_self _ _)
    have hrest : AllDispatched pre := fun x hx => hpre x (List.mem_cons_of_mem _ hx)
    simp [messageLoop, hm.1, hm.2, State.call, ih _ hrest, loopTrace]

theorem messageLoop_blocked (queue : List QueueItem) (st : State) (h : AllDispatched queue) :
    messageLoop queue st =
      ({ trace := st.trace ++ loopTrace queue ++ [Event.getMessage], fs := st.fs },
        LoopEnd.blocked) := by
  induction queue generalizing st with
  | nil => simp [messageLoop, State.call, loopTrace]
  | cons m pre ih =>
    have hm := h m (List.mem_cons_self _ _)
    have hrest : AllDispatched pre := fun x hx => h x (List.mem_cons_of_mem _ hx)
    simp [messageLoop, hm.1, hm.2, State.call, ih _ hrest, loopTrace]

/-- Every queue is of exactly one of three kinds. -/
theorem queue_cases (queue : List QueueItem) :
    QuitReceived queue ∨ (∃ f, DispatchRaises queue f) ∨ AllDispatched queue := by
  induction queue with
  | nil => right; right; intro m hm; simp at hm
  | cons m rest ih =>
    by_cases h0 : m.result = 0
    · left; exact ⟨[], m, rest, rfl, fun x hx => by simp at hx, h0⟩
    · cases hd : m.dispatch with
      | raise f => right; left; exact ⟨f, [], m, rest, rfl, fun x hx => by simp at hx, h0, hd⟩
      | ret u =>
        rcases ih with ⟨pre, q, post, he, hp, hq⟩ | ⟨f, pre, q, post, he, hp, hq, hf⟩ | hall
        · left
          refine ⟨m :: pre, q, post, by simp [he], ?_, hq⟩
          intro x hx
          rcases List.mem_cons.1 hx with rfl | hx
          · exact ⟨h0, hd⟩
          · exact hp x hx
        · right; left
          refine ⟨f, m :: pre, q, post, by simp [he], ?_, hq, hf⟩
          intro x hx
          rcases List.mem_cons.1 hx with rfl | hx
          · exact ⟨h0, hd⟩
          · exact hp x hx
        · right; right
          intro x hx
          rcases List.mem_cons.1 hx with rfl | hx
          · exact ⟨h0, hd⟩
          · exact hall x hx

/-! ## Lemmas on the `try` block -/

theorem consoleStep_eq (env : Env) (st : State) :
    consoleStep env st = { trace := st.trace ++ consoleTrace env, fs := st.fs } := by
  unfold consoleTrace consoleStep
  by_cases ha : env.attachConsole = 0 <;> by_cases hd : env.isDebuggerPresent = 0 <;>
    simp [ha, hd, State.call, CreateAndAttachConsole]

theorem try_comInitFails (env : Env) (st : State) (h : ComInitFails env) :
    wWinMainTry env st =
      ({ trace := st.trace ++ prefixTrace env ++
            [Event.writeNativeCrashLog "Failed to CoInitializeEx"],
         fs := WriteNativeCrashLog env.crashLog "Failed to CoInitializeEx" st.fs },
        TryEnd.returned EXIT_FAILURE) := by
  unfold ComInitFails at h
  simp [wWinMainTry, consoleStep_eq, h, State.call, logCrash, prefixTrace]

theorem try_windowCreateFails (env : Env) (st : State) (args : List String)
    (h : WindowCreateFails env) (ha : env.getCommandLineArguments = Outcome.ret args) :
    wWinMainTry env st =
      ({ trace := st.trace ++ prefixTrace env ++ buildTrace args ++
            [Event.writeNativeCrashLog "Failed to create Flutter window"],
         fs := WriteNativeCrashLog env.crashLog "Failed to create Flutter window" st.fs },
        TryEnd.returned EXIT_FAILURE) := by
  obtain ⟨⟨h1, h2, -, h4, h5⟩, h6⟩ := h
  simp [wWinMainTry, consoleStep_eq, h1, h2, ha, h4, h5, h6, State.call, logCrash, prefixTrace,
    buildTrace]

theorem try_normalQuit (env : Env) (st : State) (args : List String)
    (pre : List QueueItem) (q : QueueItem) (post : List QueueItem)
    (h : ReachesLoop env) (ha : env.getCommandLineArguments = Outcome.ret args)
    (hqueue : env.queue = pre ++ q :: post) (hpre : AllDispatched pre) (hq : q.result = 0) :
    wWinMainTry env st =
      ({ trace := st.trace ++ prefixTrace env ++ buildTrace args ++ [Event.setQuitOnClose true] ++
            loopTrace pre ++ [Event.getMessage, Event.coUninitialize],
         fs := st.fs },
        TryEnd.returned EXIT_SUCCESS) := by
  obtain ⟨⟨h1, h2, -, h4, h5⟩, h6, h7⟩ := h
  simp [wWinMainTry, consoleStep_eq, h1, h2, ha, h4, h5, h6, h7, hqueue,
    messageLoop_quit pre q post _ hpre hq, State.call, prefixTrace, buildTrace]

theorem try_waitsForEver (env : Env) (st : State) (args : List String)
    (h : WaitsForEver env) (ha : env.getCommandLineArguments = Outcome.ret args) :
    wWinMainTry env st =
      ({ trace := st.trace ++ prefixTrace env ++ buildTrace args ++ [Event.setQuitOnClose true] ++
            loopTrace env.queue ++ [Event.getMessage],
         fs := st.fs },
        TryEnd.blocked) := by
  obtain ⟨⟨⟨h1, h2, -, h4, h5⟩, h6, h7⟩, hall⟩ := h
  simp [wWinMainTry, consoleStep_eq, h1, h2, ha, h4, h5, h6, h7,
    messageLoop_blocked env.queue _ hall, State.call, prefixTrace, buildTrace]

theorem loopTrace_isBodyStep (items : List QueueItem) :
    ∀ e ∈ loopTrace items, e.isBodyStep = true := by
  intro e he
  simp only [loopTrace, List.mem_flatMap] at he
  obtain ⟨m, -, hm⟩ := he
  simp at hm
  rcases hm with rfl | rfl | rfl <;> rfl

theorem buildTrace_isBodyStep (args : List String) :
    ∀ e ∈ buildTrace args, e.isBodyStep = true := by
  intro e he
  simp [buildTrace] at he
  rcases he with rfl | rfl | rfl | rfl | rfl <;> rfl

theorem try_raises (env : Env) (st : State) (f : Fault) (h : Raises env f) :
    ∃ t, (∀ e ∈ t, e.isBodyStep = true) ∧
      wWinMainTry env st =
        ({ trace := st.trace ++ prefixTrace env ++ t, fs := st.fs }, TryEnd.threw f) := by
  obtain ⟨h1, h⟩ := h
  rcases h with h2 | ⟨h2, h⟩
  · exact ⟨[Event.dartProject "data"], by simp [Event.isBodyStep],
      by simp [wWinMainTry, consoleStep_eq, h1, h2, State.call, prefixTrace]⟩
  rcases h with h3 | ⟨⟨args, h3⟩, h⟩
  · exact ⟨[Event.dartProject "data", Event.getCommandLineArguments], by simp [Event.isBodyStep],
      by simp [wWinMainTry, consoleStep_eq, h1, h2, h3, State.call, prefixTrace]⟩
  rcases h with h4 | ⟨h4, h⟩
  · exact ⟨(buildTrace args).take 3, by simp [buildTrace, Event.isBodyStep],
      by simp [wWinMainTry, consoleStep_eq, h1, h2, h3, h4, State.call, prefixTrace, buildTrace]⟩
  rcases h with h5 | ⟨h5, h⟩
  · exact ⟨(buildTrace args).take 4, by simp [buildTrace, Event.isBodyStep],
      by simp [wWinMainTry, consoleStep_eq, h1, h2, h3, h4, h5, State.call, prefixTrace,
        buildTrace]⟩
  rcases h with h6 | ⟨h6, h⟩
  · exact ⟨buildTrace args, buildTrace_isBodyStep args,
      by simp [wWinMainTry, consoleStep_eq, h1, h2, h3, h4, h5, h6, State.call, prefixTrace,
        buildTrace]⟩
  rcases h with h7 | ⟨h7, pre, q, post, hqueue, hpre, hq, hf⟩
  · refine ⟨buildTrace args ++ [Event.setQuitOnClose true], ?_, ?_⟩
    · intro e he
      rcases List.mem_append.1 he with he | he
      · exact buildTrace_isBodyStep args e he
      · simp at he; subst he; rfl
    · simp [wWinMainTry, consoleStep_eq, h1, h2, h3, h4, h5, h6, h7, State.call, prefixTrace,
        buildTrace]
  · refine ⟨buildTrace args ++ [Event.setQuitOnClose true] ++ loopTrace pre ++
      [Event.getMessage, Event.translateMessage q.msg, Event.dispatchMessage q.msg], ?_, ?_⟩
    · intro e he
      simp only [List.mem_append] at he
      rcases he with ((he | he) | he) | he
      · exact buildTrace_isBodyStep args e he
      · simp at he; subst he; rfl
      · exact loopTrace_isBodyStep pre e he
      · simp at he
        rcases he with rfl | rfl | rfl <;> rfl
    · simp [wWinMainTry, consoleStep_eq, h1, h2, h3, h4, h5, h6, h7, hqueue,
        messageLoop_raise pre q post _ f hpre hq hf, State.call, prefixTrace, buildTrace]

/-- Every environment is of one of five kinds. -/
theorem env_cases (env : Env) :
    ComInitFails env ∨ WindowCreateFails env ∨ (∃ f, Raises env f) ∨ NormalQuit env ∨
      WaitsForEver env := by
  unfold ComInitFails WindowCreateFails Raises NormalQuit WaitsForEver ReachesLoop ReachesCreate
  cases h1 : FAILED env.coInitializeEx
  swap
  · exact Or.inl rfl
  cases h2 : env.dartProject with
  | raise f => exact Or.inr (Or.inr (Or.inl ⟨f, rfl, Or.inl rfl⟩))
  | ret u2 =>
  cases h3 : env.getCommandLineArguments with
  | raise f => exact Or.inr (Or.inr (Or.inl ⟨f, rfl, Or.inr ⟨rfl, Or.inl rfl⟩⟩))
  | ret args =>
  cases h4 : env.setDartEntrypointArguments with
  | raise f =>
    exact Or.inr (Or.inr (Or.inl ⟨f, rfl, Or.inr ⟨rfl, Or.inr ⟨⟨args, rfl⟩, Or.inl rfl⟩⟩⟩))
  | ret u4 =>
  cases h5 : env.flutterWindow with
  | raise f =>
    exact Or.inr (Or.inr (Or.inl ⟨f, rfl, Or.inr ⟨rfl, Or.inr ⟨⟨args, rfl⟩, Or.inr ⟨rfl,
      Or.inl rfl⟩⟩⟩⟩))
  | ret u5 =>
  cases h6 : env.windowCreate with
  | raise f =>
    exact Or.inr (Or.inr (Or.inl ⟨f, rfl, Or.inr ⟨rfl, Or.inr ⟨⟨args, rfl⟩, Or.inr ⟨rfl,
      Or.inr ⟨rfl, Or.inl rfl⟩⟩⟩⟩⟩))
  | ret b =>
  cases b with
  | false => exact Or.inr (Or.inl ⟨⟨rfl, rfl, ⟨args, rfl⟩, rfl, rfl⟩, rfl⟩)
  | true =>
  cases h7 : env.setQuitOnClose with
  | raise f =>
    exact Or.inr (Or.inr (Or.inl ⟨f, rfl, Or.inr ⟨rfl, Or.inr ⟨⟨args, rfl⟩, Or.inr ⟨rfl,
      Or.inr ⟨rfl, Or.inr ⟨rfl, Or.inl rfl⟩⟩⟩⟩⟩⟩))
  | ret u7 =>
  rcases queue_cases env.queue with hq | ⟨f, hf⟩ | hall
  · exact Or.inr (Or.inr (Or.inr (Or.inl ⟨⟨⟨rfl, rfl, ⟨args, rfl⟩, rfl, rfl⟩, rfl, rfl⟩, hq⟩)))
  · exact Or.inr (Or.inr (Or.inl ⟨f, rfl, Or.inr ⟨rfl, Or.inr ⟨⟨args, rfl⟩, Or.inr ⟨rfl,
      Or.inr ⟨rfl, Or.inr ⟨rfl, Or.inr ⟨rfl, hf⟩⟩⟩⟩⟩⟩⟩))
  · exact Or.inr (Or.inr (Or.inr (Or.inr ⟨⟨⟨rfl, rfl, ⟨args, rfl⟩, rfl, rfl⟩, rfl, rfl⟩, hall⟩)))

theorem consoleTrace_isStartup (env : Env) : ∀ e ∈ consoleTrace env, e.isStartup = true := by
  intro e he
  unfold consoleTrace consoleStep at he
  by_cases ha : env.attachConsole = 0 <;> by_cases hd : env.isDebuggerPresent = 0 <;>
    simp [ha, hd, State.call, CreateAndAttachConsole] at he <;> rcases he with rfl | rfl | rfl <;> rfl

theorem prefixTrace_isStartup (env : Env) : ∀ e ∈ prefixTrace env, e.isStartup = true := by
  intro e he
  rcases List.mem_append.1 he with he | he
  · exact consoleTrace_isStartup env e he
  · simp at he
    rcases he with rfl | rfl <;> rfl

/-- A list of startup calls followed by body steps holds no call of the logger. -/
theorem crashLog_not_mem_steps (env : Env) (t : List Event)
    (ht : ∀ e ∈ t, e.isBodyStep = true) (errorMsg : String) :
    Event.writeNativeCrashLog errorMsg ∉ prefixTrace env ++ t := by
  intro hmem
  rcases List.mem_append.1 hmem with he | he
  · exact absurd (prefixTrace_isStartup env _ he) (by simp [Event.isStartup])
  · exact absurd (ht _ he) (by simp [Event.isBodyStep])

/-- A list of startup calls followed by body steps holds no call of `MessageBoxA`. -/
theorem messageBox_not_mem_steps (env : Env) (t : List Event)
    (ht : ∀ e ∈ t, e.isBodyStep = true) (text caption : String) (style : Nat) :
    Event.messageBox text caption style ∉ prefixTrace env ++ t := by
  intro hmem
  rcases List.mem_append.1 hmem with he | he
  · exact absurd (prefixTrace_isStartup env _ he) (by simp [Event.isStartup])
  · exact absurd (ht _ he) (by simp [Event.isBodyStep])

/-- The calls of a run that reaches the loop and leaves it on a quit message are body steps. -/
theorem quitTrace_isBodyStep (args : List String) (items : List QueueItem) (tail : List Event)
    (htail : ∀ e ∈ tail, e.isBodyStep = true) :
    ∀ e ∈ buildTrace args ++ [Event.setQuitOnClose true] ++ loopTrace items ++ tail,
      e.isBodyStep = true := by
  intro e he
  simp only [List.mem_append] at he
  rcases he with ((he | he) | he) | he
  · exact buildTrace_isBodyStep args e he
  · simp at he; subst he; rfl
  · exact loopTrace_isBodyStep items e he
  · exact htail e he

/-- Among startup calls followed by body steps no message box is found. -/
theorem filter_messageBox_steps (env : Env) (t : List Event)
    (ht : ∀ e ∈ t, e.isBodyStep = true) :
    (prefixTrace env ++ t).filter Event.isMessageBox = [] := by
  rw [List.filter_eq_nil_iff]
  intro e he
  rcases List.mem_append.1 he with he | he
  · have := prefixTrace_isStartup env e he
    cases e <;> simp_all [Event.isStartup, Event.isMessageBox]
  · have := ht e he
    cases e <;> simp_all [Event.isBodyStep, Event.isMessageBox]

/-! ## Lemmas on `wWinMain` -/

theorem wWinMain_comInitFails (env : Env) (fs : FileSystem) (h : ComInitFails env) :
    wWinMain env fs =
      { trace := prefixTrace env ++ [Event.writeNativeCrashLog "Failed to CoInitializeEx"],
        fs := WriteNativeCrashLog env.crashLog "Failed to CoInitializeEx" fs,
        exit := some EXIT_FAILURE } := by
  simp [wWinMain, try_comInitFails env _ h]

theorem wWinMain_windowCreateFails (env : Env) (fs : FileSystem) (args : List String)
    (h : WindowCreateFails env) (ha : env.getCommandLineArguments = Outcome.ret args) :
    wWinMain env fs =
      { trace := prefixTrace env ++ buildTrace args ++
          [Event.writeNativeCrashLog "Failed to create Flutter window"],
        fs := WriteNativeCrashLog env.crashLog "Failed to create Flutter window" fs,
        exit := some EXIT_FAILURE } := by
  simp [wWinMain, try_windowCreateFails env _ args h ha]

theorem wWinMain_normalQuit (env : Env) (fs : FileSystem) (args : List String)
    (pre : List QueueItem) (q : QueueItem) (post : List QueueItem)
    (h : ReachesLoop env) (ha : env.getCommandLineArguments = Outcome.ret args)
    (hqueue : env.queue = pre ++ q :: post) (hpre : AllDispatched pre) (hq : q.result = 0) :
    wWinMain env fs =
      { trace := prefixTrace env ++ buildTrace args ++ [Event.setQuitOnClose true] ++
          loopTrace pre ++ [Event.getMessage, Event.coUninitialize],
        fs := fs, exit := some EXIT_SUCCESS } := by
  simp [wWinMain, try_normalQuit env _ args pre q post h ha hqueue hpre hq]

theorem wWinMain_waitsForEver (env : Env) (fs : FileSystem) (args : List String)
    (h : WaitsForEver env) (ha : env.getCommandLineArguments = Outcome.ret args) :
    wWinMain env fs =
      { trace := prefixTrace env ++ buildTrace args ++ [Event.setQuitOnClose true] ++
          loopTrace env.queue ++ [Event.getMessage],
        fs := fs, exit := none } := by
  simp [wWinMain, try_waitsForEver env _ args h ha]

theorem wWinMain_raises_std (env : Env) (fs : FileSystem) (what : String)
    (h : Raises env (Fault.stdException what)) :
    ∃ t, (∀ e ∈ t, e.isBodyStep = true) ∧
      wWinMain env fs =
        { trace := prefixTrace env ++ t ++
            [Event.writeNativeCrashLog ("std::exception: " ++ what),
             Event.messageBox what "IoT DevKit Native Crash" (MB_OK ||| MB_ICONERROR)],
          fs := WriteNativeCrashLog env.crashLog ("std::exception: " ++ what) fs,
          exit := some EXIT_FAILURE } := by
  obtain ⟨t, ht, heq⟩ := try_raises env { trace := [], fs := fs } _ h
  exact ⟨t, ht, by simp [wWinMain, heq, logCrash, State.call]⟩

theorem wWinMain_raises_other (env : Env) (fs : FileSystem) (h : Raises env Fault.other) :
    ∃ t, (∀ e ∈ t, e.isBodyStep = true) ∧
      wWinMain env fs =
        { trace := prefixTrace env ++ t ++
            [Event.writeNativeCrashLog "Unknown C++ Exception (SEH or other)",
             Event.messageBox "Unknown Fatal Native Error" "IoT DevKit Native Crash"
               (MB_OK ||| MB_ICONERROR)],
          fs := WriteNativeCrashLog env.crashLog "Unknown C++ Exception (SEH or other)" fs,
          exit := some EXIT_FAILURE } := by
  obtain ⟨t, ht, heq⟩ := try_raises env { trace := [], fs := fs } _ h
  exact ⟨t, ht, by simp [wWinMain, heq, logCrash, State.call]⟩

/-- The exit code of each kind of run. -/
theorem exit_cases (env : Env) (fs : FileSystem) :
    (ComInitFails env ∧ (wWinMain env fs).exit = some EXIT_FAILURE) ∨
    (WindowCreateFails env ∧ (wWinMain env fs).exit = some EXIT_FAILURE) ∨
    ((∃ f, Raises env f) ∧ (wWinMain env fs).exit = some EXIT_FAILURE) ∨
    (NormalQuit env ∧ (wWinMain env fs).exit = some EXIT_SUCCESS) ∨
    (WaitsForEver env ∧ (wWinMain env fs).exit = none) := by
  rcases env_cases env with h | h | ⟨f, h⟩ | h | h
  · exact Or.inl ⟨h, by rw [wWinMain_comInitFails env fs h]⟩
  · obtain ⟨args, ha⟩ := h.1.2.2.1
    exact Or.inr (Or.inl ⟨h, by rw [wWinMain_windowCreateFails env fs args h ha]⟩)
  · refine Or.inr (Or.inr (Or.inl ⟨⟨f, h⟩, ?_⟩))
    cases f with
    | stdException what =>
      obtain ⟨t, -, heq⟩ := wWinMain_raises_std env fs what h
      rw [heq]
    | other =>
      obtain ⟨t, -, heq⟩ := wWinMain_raises_other env fs h
      rw [heq]
  · obtain ⟨args, ha⟩ := h.1.1.2.2.1
    obtain ⟨pre, q, post, hqueue, hpre, hq⟩ := h.2
    exact Or.inr (Or.inr (Or.inr (Or.inl
      ⟨h, by rw [wWinMain_normalQuit env fs args pre q post h.1 ha hqueue hpre hq]⟩)))
  · obtain ⟨args, ha⟩ := h.1.1.2.2.1
    exact Or.inr (Or.inr (Or.inr (Or.inr ⟨h, by rw [wWinMain_waitsForEver env fs args h ha]⟩)))

theorem exit_of_normalQuit (env : Env) (fs : FileSystem) (h : NormalQuit env) :
    (wWinMain env fs).exit = some EXIT_SUCCESS := by
  obtain ⟨args, ha⟩ := h.1.1.2.2.1
  obtain ⟨pre, q, post, hqueue, hpre, hq⟩ := h.2
  rw [wWinMain_normalQuit env fs args pre q post h.1 ha hqueue hpre hq]

theorem exit_of_failure (env : Env) (fs : FileSystem)
    (h : ComInitFails env ∨ WindowCreateFails env ∨ ∃ f, Raises env f) :
    (wWinMain env fs).exit = some EXIT_FAILURE := by
  rcases h with h | h | ⟨f, h⟩
  · rw [wWinMain_comInitFails env fs h]
  · obtain ⟨args, ha⟩ := h.1.2.2.1
    rw [wWinMain_windowCreateFails env fs args h ha]
  · cases f with
    | stdException what =>
      obtain ⟨t, -, heq⟩ := wWinMain_raises_std env fs what h
      rw [heq]
    | other =>
      obtain ⟨t, -, heq⟩ := wWinMain_raises_other env fs h
      rw [heq]

theorem sampleEnv_normalQuit : NormalQuit sampleEnv :=
  ⟨⟨⟨rfl, rfl, ⟨_, rfl⟩, rfl, rfl⟩, rfl, rfl⟩,
    ⟨[{ result := 1, msg := keyMsg, dispatch := Outcome.ret () }],
      { result := 0, msg := quitMsg, dispatch := Outcome.ret () }, [], rfl,
      by intro m hm; simp at hm; subst hm; exact ⟨by decide, rfl⟩, rfl⟩⟩

/-! ## Lemmas on the crash logger -/

theorem crashLogPath_eq (documents : String) :
    documents ++ "\\IoT DevKit" ++ "\\crash_native.txt" = crashLogPath documents := by
  unfold crashLogPath
  rw [String.append_assoc]
  rfl

/-- When the documents folder resolves and the file opens, the call adds its record at the
end of the log file and leaves every other file alone. -/
theorem WriteNativeCrashLog_appends (log : CrashLogEnv) (errorMsg : String) (fs : FileSystem)
    (hfolder : SUCCEEDED log.folderResult = true) (hopen : log.opens = true) :
    (WriteNativeCrashLog log errorMsg fs).files (crashLogPath log.folderPath) =
      some ((fs.files (crashLogPath log.folderPath)).getD "" ++
        crashRecord log.localTime errorMsg) ∧
    ∀ p, p ≠ crashLogPath log.folderPath → (WriteNativeCrashLog log errorMsg fs).files p = fs.files p := by
  unfold WriteNativeCrashLog
  simp only [hfolder, hopen, if_true, crashLogPath_eq]
  constructor
  · cases log.directoryCreated <;> simp [appendFile, CreateDirectoryA]
  · intro p hp
    cases log.directoryCreated <;> simp [appendFile, CreateDirectoryA, hp]

/-- When the documents folder does not resolve or the file does not open, no file changes. -/
theorem WriteNativeCrashLog_skips (log : CrashLogEnv) (errorMsg : String) (fs : FileSystem)
    (h : SUCCEEDED log.folderResult = false ∨ log.opens = false) :
    (WriteNativeCrashLog log errorMsg fs).files = fs.files := by
  unfold WriteNativeCrashLog
  rcases h with h | h
  · simp [h]
  · cases hs : SUCCEEDED log.folderResult <;> cases log.directoryCreated <;>
      simp [h, CreateDirectoryA]

theorem digitChar_value (k : Nat) (hk : k < 10) : (Nat.digitChar k).toNat - '0'.toNat = k := by
  interval_cases k <;> rfl

theorem digitChar_ne_zero (k : Nat) (hpos : 0 < k) (hk : k < 10) : Nat.digitChar k ≠ '0' := by
  interval_cases k <;> decide

/-- What `Nat.toDigitsCore` puts before its accumulator is the decimal numeral of `n`:
it has the value `n` and, for `n` positive, does not start with the digit 0. -/
theorem toDigitsCore_decimal (fuel : Nat) :
    ∀ n ds, n < fuel → ∃ l, Nat.toDigitsCore 10 fuel n ds = l ++ ds ∧
      l.foldl (fun acc c => 10 * acc + (c.toNat - '0'.toNat)) 0 = n ∧
      (0 < n → l.head? ≠ some '0') ∧ l ≠ [] := by
  induction fuel with
  | zero => intro n ds h; omega
  | succ fuel ih =>
    intro n ds hn
    by_cases h0 : n / 10 = 0
    · have hlt : n < 10 := by omega
      refine ⟨[Nat.digitChar (n % 10)], by simp [Nat.toDigitsCore, h0], ?_, ?_, by simp⟩
      · simp only [List.foldl, Nat.mul_zero, Nat.zero_add]
        rw [digitChar_value _ (Nat.mod_lt _ (by decide))]
        omega
      · intro hpos
        have : n % 10 = n := Nat.mod_eq_of_lt hlt
        simp only [List.head?, ne_eq, Option.some.injEq]
        rw [this]
        exact digitChar_ne_zero n hpos hlt
    · obtain ⟨l, hl, hval, hhead, hne⟩ := ih (n / 10) (Nat.digitChar (n % 10) :: ds) (by omega)
      refine ⟨l ++ [Nat.digitChar (n % 10)], by simp [Nat.toDigitsCore, h0, hl], ?_, ?_, by simp⟩
      · rw [List.foldl_append, hval]
        simp only [List.foldl]
        rw [digitChar_value _ (Nat.mod_lt _ (by decide))]
        omega
      · intro _
        have := hhead (by omega)
        cases l with
        | nil => exact absurd rfl hne
        | cons c l => simpa using this

/-- The decimal text of a `WORD` stands for the number and has no leading zero. -/
theorem showWORD_decimal (w : Nat) :
    decimalValue (showWORD w) = w ∧ (0 < w → (showWORD w).data.head? ≠ some '0') := by
  obtain ⟨l, hl, hval, hhead, -⟩ := toDigitsCore_decimal (w + 1) w [] (by omega)
  rw [List.append_nil] at hl
  have hdata : (showWORD w).data = l := by
    simp [showWORD, Nat.repr, Nat.toDigits, hl, List.asString]
  unfold decimalValue
  rw [hdata]
  exact ⟨hval, hhead⟩

theorem comFailEnv_comInitFails : ComInitFails comFailEnv := by
  unfold ComInitFails; decide

theorem comFailLockedEnv_comInitFails : ComInitFails comFailLockedEnv := by
  unfold ComInitFails; decide

theorem createFailEnv_windowCreateFails : WindowCreateFails createFailEnv :=
  ⟨⟨rfl, rfl, ⟨_, rfl⟩, rfl, rfl⟩, rfl⟩

theorem stdFaultEnv_raises : Raises stdFaultEnv (Fault.stdException "engine failed") :=
  ⟨rfl, Or.inr ⟨rfl, Or.inr ⟨⟨_, rfl⟩, Or.inr ⟨rfl, Or.inl rfl⟩⟩⟩⟩

theorem otherFaultEnv_raises : Raises otherFaultEnv Fault.other :=
  ⟨rfl, Or.inr ⟨rfl, Or.inr ⟨⟨_, rfl⟩, Or.inr ⟨rfl, Or.inr ⟨rfl, Or.inr ⟨rfl, Or.inr ⟨rfl,
    ⟨[], { result := 1, msg := keyMsg, dispatch := Outcome.raise Fault.other }, [], rfl,
      by intro m hm; simp at hm, by decide, rfl⟩⟩⟩⟩⟩⟩⟩⟩

/-- A record of the log is never the empty text. -/
theorem crashRecord_length_pos (lt : SYSTEMTIME) (errorMsg : String) :
    0 < (crashRecord lt errorMsg).length := by
  unfold crashRecord
  simp only [String.length_append]
  have : ("\n" : String).length = 1 := rfl
  omega

/-- The logger was called with `errorMsg`; when the log is reachable its record is in the file. -/
theorem entryAppended_of_write (log : CrashLogEnv) (errorMsg needle : String) (fs : FileSystem)
    (hc : Contains errorMsg needle)
    (hfolder : SUCCEEDED log.folderResult = true) (hopen : log.opens = true) :
    EntryAppended log needle fs (WriteNativeCrashLog log errorMsg fs) :=
  ⟨errorMsg, hc, (WriteNativeCrashLog_appends log errorMsg fs hfolder hopen).1⟩

/-- A call that does not get to the file `path` leaves it as it is. -/
theorem WriteNativeCrashLog_other_file (path : String) (log : CrashLogEnv) (errorMsg : String)
    (fs : FileSystem) (h : reachesFile path (log, errorMsg) = false) :
    (WriteNativeCrashLog log errorMsg fs).files path = fs.files path := by
  cases hs : SUCCEEDED log.folderResult
  · rw [WriteNativeCrashLog_skips log errorMsg fs (Or.inl hs)]
  · cases ho : log.opens
    · rw [WriteNativeCrashLog_skips log errorMsg fs (Or.inr ho)]
    · have hp : path ≠ crashLogPath log.folderPath := by
        intro hp
        simp [reachesFile, hs, ho, hp] at h
      exact (WriteNativeCrashLog_appends log errorMsg fs hs ho).2 path hp

/-- A call that gets to the file `path` adds its record at the end. -/
theorem WriteNativeCrashLog_this_file (path : String) (log : CrashLogEnv) (errorMsg : String)
    (fs : FileSystem) (h : reachesFile path (log, errorMsg) = true) :
    (WriteNativeCrashLog log errorMsg fs).files path =
      some ((fs.files path).getD "" ++ crashRecord log.localTime errorMsg) := by
  simp only [reachesFile, Bool.and_eq_true, decide_eq_true_eq] at h
  obtain ⟨⟨hs, ho⟩, hp⟩ := h
  subst hp
  exact (WriteNativeCrashLog_appends log errorMsg fs hs ho).1

theorem writeCrashLogs_files (calls : List (CrashLogEnv × String)) :
    ∀ (fs : FileSystem) (path c : String), fs.files path = some c →
      (writeCrashLogs calls fs).files path =
        some (c ++ recordsText (calls.filter (reachesFile path))) := by
  induction calls with
  | nil => intro fs path c h; simp [writeCrashLogs, recordsText, h]
  | cons call rest ih =>
    intro fs path c h
    obtain ⟨log, errorMsg⟩ := call
    cases hr : reachesFile path (log, errorMsg)
    · have := WriteNativeCrashLog_other_file path log errorMsg fs hr
      rw [h] at this
      simp [writeCrashLogs, List.filter, hr, ih _ path c this]
    · have := WriteNativeCrashLog_this_file path log errorMsg fs hr
      rw [h] at this
      simp [writeCrashLogs, List.filter, hr, ih _ path _ this, recordsText, String.append_assoc]

/-! ## Lemmas on the position of the argument call -/

theorem loopTrace_isAfterArguments (items : List QueueItem) :
    ∀ e ∈ loopTrace items, e.isAfterArguments = true := by
  intro e he
  simp only [loopTrace, List.mem_flatMap] at he
  obtain ⟨m, -, hm⟩ := he
  simp at hm
  rcases hm with rfl | rfl | rfl <;> rfl

theorem buildTail_isAfterArguments :
    ∀ e ∈ [Event.flutterWindow, Event.windowCreate "iot_devkit" 10 10 1280 720],
      e.isAfterArguments = true := by
  intro e he
  simp at he
  rcases he with rfl | rfl <;> rfl

/-- In a run that raises after the argument list was obtained, the calls of the `try`
block from the argument call on are this call and calls of later steps. -/
theorem try_raises_after_arguments (env : Env) (st : State) (f : Fault) (args : List String)
    (h : Raises env f) (h2 : env.dartProject = Outcome.ret ())
    (h3 : env.getCommandLineArguments = Outcome.ret args) :
    ∃ rest, (∀ e ∈ rest, e.isAfterArguments = true) ∧
      wWinMainTry env st =
        ({ trace := st.trace ++ prefixTrace env ++
              [Event.dartProject "data", Event.getCommandLineArguments] ++
              Event.setDartEntrypointArguments args :: rest,
           fs := st.fs }, TryEnd.threw f) := by
  obtain ⟨h1, h⟩ := h
  rcases h with h2' | ⟨-, h⟩
  · rw [h2] at h2'; cases h2'
  rcases h with h3' | ⟨-, h⟩
  · rw [h3] at h3'; cases h3'
  rcases h with h4 | ⟨h4, h⟩
  · exact ⟨[], by simp,
      by simp [wWinMainTry, consoleStep_eq, h1, h2, h3, h4, State.call, prefixTrace]⟩
  rcases h with h5 | ⟨h5, h⟩
  · exact ⟨[Event.flutterWindow], by simp [Event.isAfterArguments],
      by simp [wWinMainTry, consoleStep_eq, h1, h2, h3, h4, h5, State.call, prefixTrace]⟩
  rcases h with h6 | ⟨h6, h⟩
  · exact ⟨[Event.flutterWindow, Event.windowCreate "iot_devkit" 10 10 1280 720],
      buildTail_isAfterArguments,
      by simp [wWinMainTry, consoleStep_eq, h1, h2, h3, h4, h5, h6, State.call, prefixTrace]⟩
  rcases h with h7 | ⟨h7, pre, q, post, hqueue, hpre, hq, hf⟩
  · refine ⟨[Event.flutterWindow, Event.windowCreate "iot_devkit" 10 10 1280 720,
      Event.setQuitOnClose true], ?_, ?_⟩
    · intro e he
      simp at he
      rcases he with rfl | rfl | rfl <;> rfl
    · simp [wWinMainTry, consoleStep_eq, h1, h2, h3, h4, h5, h6, h7, State.call, prefixTrace]
  · refine ⟨[Event.flutterWindow, Event.windowCreate "iot_devkit" 10 10 1280 720,
      Event.setQuitOnClose true] ++ loopTrace pre ++
      [Event.getMessage, Event.translateMessage q.msg, Event.dispatchMessage q.msg], ?_, ?_⟩
    · intro e he
      simp only [List.mem_append] at he
      rcases he with (he | he) | he
      · simp at he
        rcases he with rfl | rfl | rfl <;> rfl
      · exact loopTrace_isAfterArguments pre e he
      · simp at he
        rcases he with rfl | rfl | rfl <;> rfl
    · simp [wWinMainTry, consoleStep_eq, h1, h2, h3, h4, h5, h6, h7, hqueue,
        messageLoop_raise pre q post _ f hpre hq hf, State.call, prefixTrace]

/-- From the call that passes the arguments on, the trace of every run that gets there is
this call followed by calls of later steps only. -/
theorem trace_after_arguments (env : Env) (fs : FileSystem) (args : List String)
    (h1 : FAILED env.coInitializeEx = false) (h2 : env.dartProject = Outcome.ret ())
    (h3 : env.getCommandLineArguments = Outcome.ret args) :
    ∃ rest, (∀ e ∈ rest, e.isAfterArguments = true) ∧
      (wWinMain env fs).trace =
        prefixTrace env ++ [Event.dartProject "data", Event.getCommandLineArguments] ++
          Event.setDartEntrypointArguments args :: rest := by
  have htail : ∀ (items : List QueueItem) (tail : List Event),
      (∀ e ∈ tail, e.isAfterArguments = true) →
      ∀ e ∈ [Event.flutterWindow, Event.windowCreate "iot_devkit" 10 10 1280 720,
        Event.setQuitOnClose true] ++ loopTrace items ++ tail, e.isAfterArguments = true := by
    intro items tail htail e he
    simp only [List.mem_append] at he
    rcases he with (he | he) | he
    · simp at he
      rcases he with rfl | rfl | rfl <;> rfl
    · exact loopTrace_isAfterArguments items e he
    · exact htail e he
  rcases env_cases env with h | h | ⟨f, h⟩ | h | h
  · unfold ComInitFails at h
    rw [h1] at h; cases h
  · refine ⟨[Event.flutterWindow, Event.windowCreate "iot_devkit" 10 10 1280 720,
      Event.writeNativeCrashLog "Failed to create Flutter window"], ?_, ?_⟩
    · intro e he
      simp at he
      rcases he with rfl | rfl | rfl <;> rfl
    · rw [wWinMain_windowCreateFails env fs args h h3]
      simp [buildTrace]
  · cases f with
    | stdException what =>
      obtain ⟨rest, hrest, heq⟩ :=
        try_raises_after_arguments env { trace := [], fs := fs } _ args h h2 h3
      refine ⟨rest ++ [Event.writeNativeCrashLog ("std::exception: " ++ what),
        Event.messageBox what "IoT DevKit Native Crash" (MB_OK ||| MB_ICONERROR)], ?_, ?_⟩
      · intro e he
        rcases List.mem_append.1 he with he | he
        · exact hrest e he
        · simp at he
          rcases he with rfl | rfl <;> rfl
      · simp [wWinMain, heq, logCrash, State.call]
    | other =>
      obtain ⟨rest, hrest, heq⟩ :=
        try_raises_after_arguments env { trace := [], fs := fs } _ args h h2 h3
      refine ⟨rest ++ [Event.writeNativeCrashLog "Unknown C++ Exception (SEH or other)",
        Event.messageBox "Unknown Fatal Native Error" "IoT DevKit Native Crash"
          (MB_OK ||| MB_ICONERROR)], ?_, ?_⟩
      · intro e he
        rcases List.mem_append.1 he with he | he
        · exact hrest e he
        · simp at he
          rcases he with rfl | rfl <;> rfl
      · simp [wWinMain, heq, logCrash, State.call]
  · obtain ⟨pre, q, post, hqueue, hpre, hq⟩ := h.2
    refine ⟨_, htail pre [Event.getMessage, Event.coUninitialize]
      (by intro e he; simp at he; rcases he with rfl | rfl <;> rfl), ?_⟩
    rw [wWinMain_normalQuit env fs args pre q post h.1 h3 hqueue hpre hq]
    simp [buildTrace]
  · refine ⟨_, htail env.queue [Event.getMessage]
      (by intro e he; simp at he; subst he; rfl), ?_⟩
    rw [wWinMain_waitsForEver env fs args h h3]
    simp [buildTrace]

/-- A run that does not obtain the argument list does not pass one on. -/
theorem no_arguments_call (env : Env) (fs : FileSystem)
    (h : FAILED env.coInitializeEx = true ∨ (∃ f, env.dartProject = Outcome.raise f) ∨
      (∃ f, env.getCommandLineArguments = Outcome.raise f)) :
    ∀ e ∈ (wWinMain env fs).trace, e.isSetArguments = false := by
  have hpre : ∀ (t : List Event), (∀ e ∈ t, e.isSetArguments = false) →
      ∀ e ∈ prefixTrace env ++ t, e.isSetArguments = false := by
    intro t ht e he
    rcases List.mem_append.1 he with he | he
    · have := prefixTrace_isStartup env e he
      cases e <;> simp_all [Event.isStartup, Event.isSetArguments]
    · exact ht e he
  cases h1 : FAILED env.coInitializeEx
  swap
  · rw [wWinMain_comInitFails env fs h1]
    exact hpre _ (by simp [Event.isSetArguments])
  simp only [h1, Bool.false_eq_true, false_or] at h
  cases h2 : env.dartProject with
  | raise f =>
    cases f with
    | stdException what =>
      have heq : (wWinMain env fs).trace = prefixTrace env ++ [Event.dartProject "data",
          Event.writeNativeCrashLog ("std::exception: " ++ what),
          Event.messageBox what "IoT DevKit Native Crash" (MB_OK ||| MB_ICONERROR)] := by
        simp [wWinMain, wWinMainTry, consoleStep_eq, h1, h2, State.call, logCrash, prefixTrace]
      rw [heq]
      exact hpre _ (by simp [Event.isSetArguments])
    | other =>
      have heq : (wWinMain env fs).trace = prefixTrace env ++ [Event.dartProject "data",
          Event.writeNativeCrashLog "Unknown C++ Exception (SEH or other)",
          Event.messageBox "Unknown Fatal Native Error" "IoT DevKit Native Crash"
            (MB_OK ||| MB_ICONERROR)] := by
        simp [wWinMain, wWinMainTry, consoleStep_eq, h1, h2, State.call, logCrash, prefixTrace]
      rw [heq]
      exact hpre _ (by simp [Event.isSetArguments])
  | ret u =>
    rcases h with ⟨f, h⟩ | ⟨f, h3⟩
    · rw [h2] at h; cases h
    · cases f with
      | stdException what =>
        have heq : (wWinMain env fs).trace = prefixTrace env ++ [Event.dartProject "data",
            Event.getCommandLineArguments,
            Event.writeNativeCrashLog ("std::exception: " ++ what),
            Event.messageBox what "IoT DevKit Native Crash" (MB_OK ||| MB_ICONERROR)] := by
          simp [wWinMain, wWinMainTry, consoleStep_eq, h1, h2, h3, State.call, logCrash,
            prefixTrace]
        rw [heq]
        exact hpre _ (by simp [Event.isSetArguments])
      | other =>
        have heq : (wWinMain env fs).trace = prefixTrace env ++ [Event.dartProject "data",
            Event.getCommandLineArguments,
            Event.writeNativeCrashLog "Unknown C++ Exception (SEH or other)",
            Event.messageBox "Unknown Fatal Native Error" "IoT DevKit Native Crash"
              (MB_OK ||| MB_ICONERROR)] := by
          simp [wWinMain, wWinMainTry, consoleStep_eq, h1, h2, h3, State.call, logCrash,
            prefixTrace]
        rw [heq]
        exact hpre _ (by simp [Event.isSetArguments])

/-! ## Lemmas on the start of the trace -/

/-- Every trace is the startup calls followed by calls that are not startup calls. -/
theorem trace_after_prefix (env : Env) (fs : FileSystem) :
    ∃ rest, (wWinMain env fs).trace = prefixTrace env ++ rest ∧
      ∀ e ∈ rest, e.isStartup = false := by
  have hbody : ∀ (t tail : List Event), (∀ e ∈ t, e.isBodyStep = true) →
      (∀ e ∈ tail, e.isStartup = false) → ∀ e ∈ t ++ tail, e.isStartup = false := by
    intro t tail ht htail e he
    rcases List.mem_append.1 he with he | he
    · have := ht e he
      cases e <;> simp_all [Event.isBodyStep, Event.isStartup]
    · exact htail e he
  rcases env_cases env with h | h | ⟨f, h⟩ | h | h
  · exact ⟨_, by rw [wWinMain_comInitFails env fs h], by simp [Event.isStartup]⟩
  · obtain ⟨args, ha⟩ := h.1.2.2.1
    refine ⟨_, by rw [wWinMain_windowCreateFails env fs args h ha, List.append_assoc], ?_⟩
    exact hbody _ _ (buildTrace_isBodyStep args) (by simp [Event.isStartup])
  · cases f with
    | stdException what =>
      obtain ⟨t, ht, heq⟩ := wWinMain_raises_std env fs what h
      exact ⟨_, by rw [heq, List.append_assoc], hbody _ _ ht (by simp [Event.isStartup])⟩
    | other =>
      obtain ⟨t, ht, heq⟩ := wWinMain_raises_other env fs h
      exact ⟨_, by rw [heq, List.append_assoc], hbody _ _ ht (by simp [Event.isStartup])⟩
  · obtain ⟨args, ha⟩ := h.1.1.2.2.1
    obtain ⟨pre, q, post, hqueue, hpre, hq⟩ := h.2
    refine ⟨buildTrace args ++ [Event.setQuitOnClose true] ++ loopTrace pre ++
      [Event.getMessage, Event.coUninitialize] ++ [], ?_, ?_⟩
    · rw [wWinMain_normalQuit env fs args pre q post h.1 ha hqueue hpre hq]
      simp [List.append_assoc]
    · exact hbody _ _ (quitTrace_isBodyStep args pre _
        (by intro e he; simp at he; rcases he with rfl | rfl <;> rfl)) (by simp)
  · obtain ⟨args, ha⟩ := h.1.1.2.2.1
    refine ⟨buildTrace args ++ [Event.setQuitOnClose true] ++ loopTrace env.queue ++
      [Event.getMessage] ++ [], ?_, ?_⟩
    · rw [wWinMain_waitsForEver env fs args h ha]
      simp [List.append_assoc]
    · exact hbody _ _ (quitTrace_isBodyStep args env.queue _
        (by intro e he; simp at he; subst he; rfl)) (by simp)

/-- The exit code does not depend on what the console statement is answered. -/
theorem exit_console_independent (env : Env) (fs : FileSystem) (a d : Int) (c : Bool) :
    (wWinMain { env with attachConsole := a, isDebuggerPresent := d, consoleAllocated := c }
      fs).exit = (wWinMain env fs).exit := by
  rcases exit_cases env fs with h | h | h | h | h
  · rw [h.2]; exact exit_of_failure _ fs (Or.inl h.1)
  · rw [h.2]; exact exit_of_failure _ fs (Or.inr (Or.inl h.1))
  · rw [h.2]; exact exit_of_failure _ fs (Or.inr (Or.inr h.1))
  · rw [h.2]; exact exit_of_normalQuit _ fs h.1
  · rw [h.2]
    obtain ⟨args, ha⟩ := h.1.1.1.2.2.1
    have hw : WaitsForEver
        { env with attachConsole := a, isDebuggerPresent := d, consoleAllocated := c } := h.1
    rw [wWinMain_waitsForEver _ fs args hw ha]

/-! ## The claims -/

/-- C1: in a run of `wWinMain` that returns, the exit code is 0 (`EXIT_SUCCESS`) exactly
when COM initialisation succeeded, the window was created, no step raised, and the
message loop ended on a quit message (`NormalQuit`); a returning run that is not of
this kind is a COM initialisation failure, a window creation failure or a caught
fault, and in each of these the exit code is the nonzero `EXIT_FAILURE`. -/
theorem exit_code_zero_iff_normal_quit (env : Env) (fs : FileSystem) (code : Int)
    (h : (wWinMain env fs).exit = some code) :
    (code = EXIT_SUCCESS ↔ NormalQuit env) ∧
    (¬ NormalQuit env →
      (ComInitFails env ∨ WindowCreateFails env ∨ ∃ f, Raises env f) ∧ code = EXIT_FAILURE) ∧
    (ComInitFails env ∨ WindowCreateFails env ∨ (∃ f, Raises env f) → code = EXIT_FAILURE) ∧
    EXIT_SUCCESS = 0 ∧ EXIT_FAILURE ≠ 0 := by
  have hne : EXIT_FAILURE ≠ EXIT_SUCCESS := by decide
  refine ⟨⟨?_, ?_⟩, ?_, ?_, rfl, by decide⟩
  · intro hc
    subst hc
    rcases exit_cases env fs with h' | h' | h' | h' | h'
    · rw [h'.2] at h; exact absurd (Option.some.inj h) hne
    · rw [h'.2] at h; exact absurd (Option.some.inj h) hne
    · rw [h'.2] at h; exact absurd (Option.some.inj h) hne
    · exact h'.1
    · rw [h'.2] at h; exact absurd h (by simp)
  · intro hq
    rw [exit_of_normalQuit env fs hq] at h
    exact (Option.some.inj h).symm
  · intro hn
    rcases exit_cases env fs with h' | h' | h' | h' | h'
    · rw [h'.2] at h; exact ⟨Or.inl h'.1, (Option.some.inj h).symm⟩
    · rw [h'.2] at h; exact ⟨Or.inr (Or.inl h'.1), (Option.some.inj h).symm⟩
    · rw [h'.2] at h; exact ⟨Or.inr (Or.inr h'.1), (Option.some.inj h).symm⟩
    · exact absurd h'.1 hn
    · rw [h'.2] at h; exact absurd h (by simp)
  · intro hf
    rw [exit_of_failure env fs hf] at h
    exact (Option.some.inj h).symm

theorem exit_code_zero_iff_normal_quit_witness :
    (wWinMain sampleEnv emptyFS).exit = some 0 ∧
      ((0 = EXIT_SUCCESS ↔ NormalQuit sampleEnv) ∧
      (¬ NormalQuit sampleEnv →
        (ComInitFails sampleEnv ∨ WindowCreateFails sampleEnv ∨ ∃ f, Raises sampleEnv f) ∧
          0 = EXIT_FAILURE) ∧
      (ComInitFails sampleEnv ∨ WindowCreateFails sampleEnv ∨ (∃ f, Raises sampleEnv f) →
        0 = EXIT_FAILURE) ∧
      EXIT_SUCCESS = 0 ∧ EXIT_FAILURE ≠ 0) :=
  ⟨by decide, exit_code_zero_iff_normal_quit sampleEnv emptyFS 0 (by decide)⟩

/-- C3: in a run in which COM initialisation succeeds, the window is created, no step
raises and the loop receives a quit message, the exit code is 0, `WriteNativeCrashLog`
is not called, the file system (log file and directory included) is the one the run
started with, and no message box is shown. -/
theorem normal_quit_leaves_no_crash_log (env : Env) (fs : FileSystem) (h : NormalQuit env) :
    (wWinMain env fs).exit = some 0 ∧
    (∀ errorMsg, Event.writeNativeCrashLog errorMsg ∉ (wWinMain env fs).trace) ∧
    (wWinMain env fs).fs = fs ∧
    (∀ text caption style, Event.messageBox text caption style ∉ (wWinMain env fs).trace) := by
  obtain ⟨args, ha⟩ := h.1.1.2.2.1
  obtain ⟨pre, q, post, hqueue, hpre, hq⟩ := h.2
  rw [wWinMain_normalQuit env fs args pre q post h.1 ha hqueue hpre hq]
  have hbody := quitTrace_isBodyStep args pre [Event.getMessage, Event.coUninitialize]
    (by intro e he; simp at he; rcases he with rfl | rfl <;> rfl)
  refine ⟨rfl, ?_, rfl, ?_⟩
  · intro errorMsg
    simpa [List.append_assoc] using crashLog_not_mem_steps env _ hbody errorMsg
  · intro text caption style
    simpa [List.append_assoc] using messageBox_not_mem_steps env _ hbody text caption style

theorem normal_quit_leaves_no_crash_log_witness :
    NormalQuit sampleEnv ∧
      ((wWinMain sampleEnv emptyFS).exit = some 0 ∧
      (∀ errorMsg, Event.writeNativeCrashLog errorMsg ∉ (wWinMain sampleEnv emptyFS).trace) ∧
      (wWinMain sampleEnv emptyFS).fs = emptyFS ∧
      (∀ text caption style,
        Event.messageBox text caption style ∉ (wWinMain sampleEnv emptyFS).trace)) :=
  ⟨sampleEnv_normalQuit, normal_quit_leaves_no_crash_log sampleEnv emptyFS sampleEnv_normalQuit⟩

/-- C4: a message box is shown exactly in the runs that end in one of the two `catch`
handlers; none is shown when `CoInitializeEx` fails, when `window.Create` fails, or on
success.  A caught `std::exception` gives exactly one box, whose text is its `what()`
message; any other caught fault gives exactly one box with the text "Unknown Fatal
Native Error".  The title is "IoT DevKit Native Crash" and the style is
`MB_OK | MB_ICONERROR` in both. -/
theorem message_box_iff_caught_fault (env : Env) (fs : FileSystem) :
    ((∃ e ∈ (wWinMain env fs).trace, e.isMessageBox = true) ↔ ∃ f, Raises env f) ∧
    (ComInitFails env ∨ WindowCreateFails env ∨ NormalQuit env →
      (wWinMain env fs).trace.filter Event.isMessageBox = []) ∧
    (∀ what, Raises env (Fault.stdException what) →
      (wWinMain env fs).trace.filter Event.isMessageBox =
        [Event.messageBox what "IoT DevKit Native Crash" (MB_OK ||| MB_ICONERROR)]) ∧
    (Raises env Fault.other →
      (wWinMain env fs).trace.filter Event.isMessageBox =
        [Event.messageBox "Unknown Fatal Native Error" "IoT DevKit Native Crash"
          (MB_OK ||| MB_ICONERROR)]) ∧
    MB_OK ||| MB_ICONERROR = 0x10 := by
  have hquit : ∀ (args : List String) (items : List QueueItem) (tail : List Event),
      (∀ e ∈ tail, e.isBodyStep = true) →
      (prefixTrace env ++ buildTrace args ++ [Event.setQuitOnClose true] ++ loopTrace items ++
        tail).filter Event.isMessageBox = [] := by
    intro args items tail htail
    simpa [List.append_assoc] using
      filter_messageBox_steps env _ (quitTrace_isBodyStep args items tail htail)
  have hnone : ComInitFails env ∨ WindowCreateFails env ∨ NormalQuit env ∨ WaitsForEver env →
      (wWinMain env fs).trace.filter Event.isMessageBox = [] := by
    rintro (h | h | h | h)
    · have h0 := filter_messageBox_steps env [] (by simp)
      rw [List.append_nil] at h0
      rw [wWinMain_comInitFails env fs h, List.filter_append, h0]
      rfl
    · obtain ⟨args, ha⟩ := h.1.2.2.1
      rw [wWinMain_windowCreateFails env fs args h ha, List.filter_append,
        filter_messageBox_steps env _ (buildTrace_isBodyStep args)]
      rfl
    · obtain ⟨args, ha⟩ := h.1.1.2.2.1
      obtain ⟨pre, q, post, hqueue, hpre, hq⟩ := h.2
      rw [wWinMain_normalQuit env fs args pre q post h.1 ha hqueue hpre hq]
      exact hquit args pre _ (by intro e he; simp at he; rcases he with rfl | rfl <;> rfl)
    · obtain ⟨args, ha⟩ := h.1.1.2.2.1
      rw [wWinMain_waitsForEver env fs args h ha]
      exact hquit args _ _ (by intro e he; simp at he; subst he; rfl)
  have hstd : ∀ what, Raises env (Fault.stdException what) →
      (wWinMain env fs).trace.filter Event.isMessageBox =
        [Event.messageBox what "IoT DevKit Native Crash" (MB_OK ||| MB_ICONERROR)] := by
    intro what h
    obtain ⟨t, ht, heq⟩ := wWinMain_raises_std env fs what h
    rw [heq, List.filter_append, filter_messageBox_steps env t ht]
    rfl
  have hother : Raises env Fault.other →
      (wWinMain env fs).trace.filter Event.isMessageBox =
        [Event.messageBox "Unknown Fatal Native Error" "IoT DevKit Native Crash"
          (MB_OK ||| MB_ICONERROR)] := by
    intro h
    obtain ⟨t, ht, heq⟩ := wWinMain_raises_other env fs h
    rw [heq, List.filter_append, filter_messageBox_steps env t ht]
    rfl
  refine ⟨⟨?_, ?_⟩, fun h => hnone ?_, hstd, hother, by decide⟩
  · rintro ⟨e, he, hbox⟩
    rcases env_cases env with h | h | h | h | h
    · have := hnone (Or.inl h)
      rw [List.filter_eq_nil_iff] at this
      exact absurd hbox (this e he)
    · have := hnone (Or.inr (Or.inl h))
      rw [List.filter_eq_nil_iff] at this
      exact absurd hbox (this e he)
    · exact h
    · have := hnone (Or.inr (Or.inr (Or.inl h)))
      rw [List.filter_eq_nil_iff] at this
      exact absurd hbox (this e he)
    · have := hnone (Or.inr (Or.inr (Or.inr h)))
      rw [List.filter_eq_nil_iff] at this
      exact absurd hbox (this e he)
  · rintro ⟨f, h⟩
    cases f with
    | stdException what =>
      have hmem : Event.messageBox what "IoT DevKit Native Crash" (MB_OK ||| MB_ICONERROR) ∈
          (wWinMain env fs).trace.filter Event.isMessageBox := by
        rw [hstd what h]; exact List.mem_singleton_self _
      exact ⟨_, (List.mem_filter.1 hmem).1, rfl⟩
    | other =>
      have hmem : Event.messageBox "Unknown Fatal Native Error" "IoT DevKit Native Crash"
          (MB_OK ||| MB_ICONERROR) ∈ (wWinMain env fs).trace.filter Event.isMessageBox := by
        rw [hother h]; exact List.mem_singleton_self _
      exact ⟨_, (List.mem_filter.1 hmem).1, rfl⟩
  · rcases h with h | h | h
    · exact Or.inl h
    · exact Or.inr (Or.inl h)
    · exact Or.inr (Or.inr (Or.inl h))

/-- C5: when the documents folder resolves and the log file opens, `WriteNativeCrashLog`
adds to the file `<documents>\IoT DevKit\crash_native.txt`, after what the file held,
exactly the text `[year-month-day hour:minute:second] NATIVE CRASH: msg` followed by two
newlines, and touches no other file; each time field is the decimal numeral of the
number, without padding (it reads back as the number and has no leading zero). -/
theorem crash_record_format (log : CrashLogEnv) (errorMsg : String) (fs : FileSystem)
    (hfolder : SUCCEEDED log.folderResult = true) (hopen : log.opens = true) :
    (WriteNativeCrashLog log errorMsg fs).files
        (log.folderPath ++ "\\IoT DevKit\\crash_native.txt") =
      some ((fs.files (log.folderPath ++ "\\IoT DevKit\\crash_native.txt")).getD "" ++
        ("[" ++ showWORD log.localTime.wYear ++ "-" ++ showWORD log.localTime.wMonth ++ "-" ++
          showWORD log.localTime.wDay ++ " " ++ showWORD log.localTime.wHour ++ ":" ++
          showWORD log.localTime.wMinute ++ ":" ++ showWORD log.localTime.wSecond ++
          "] NATIVE CRASH: " ++ errorMsg ++ "\n\n")) ∧
    (∀ p, p ≠ log.folderPath ++ "\\IoT DevKit\\crash_native.txt" →
      (WriteNativeCrashLog log errorMsg fs).files p = fs.files p) ∧
    (∀ w, decimalValue (showWORD w) = w ∧ (0 < w → (showWORD w).data.head? ≠ some '0')) := by
  obtain ⟨happ, hother⟩ := WriteNativeCrashLog_appends log errorMsg fs hfolder hopen
  refine ⟨?_, hother, showWORD_decimal⟩
  have h1 : ∀ x : String, x ++ "] " ++ "NATIVE CRASH: " = x ++ "] NATIVE CRASH: " := by
    intro x; rw [String.append_assoc]; rfl
  have h2 : ∀ x : String, x ++ "\n" ++ "\n" = x ++ "\n\n" := by
    intro x; rw [String.append_assoc]; rfl
  unfold crashLogPath at happ
  rw [happ]
  unfold crashRecord
  rw [h1, h2]

theorem crash_record_format_witness :
    SUCCEEDED sampleLog.folderResult = true ∧ sampleLog.opens = true ∧
    (WriteNativeCrashLog sampleLog "boom" emptyFS).files
        "C:\\Users\\u\\Documents\\IoT DevKit\\crash_native.txt" =
      some "[2024-1-5 3:4:5] NATIVE CRASH: boom\n\n" ∧
    (∀ p, p ≠ "C:\\Users\\u\\Documents\\IoT DevKit\\crash_native.txt" →
      (WriteNativeCrashLog sampleLog "boom" emptyFS).files p = emptyFS.files p) ∧
    (∀ w, decimalValue (showWORD w) = w ∧ (0 < w → (showWORD w).data.head? ≠ some '0')) :=
  ⟨rfl, rfl, crash_record_format sampleLog "boom" emptyFS rfl rfl⟩

/-- C2, as stated, fails: `CoInitializeEx` fails (category a) and the log file cannot be
opened; the run returns `EXIT_FAILURE`, but the log file holds what it held before and
no entry containing "Failed to CoInitializeEx" has been appended. -/
theorem crash_entry_not_appended_when_log_locked :
    ComInitFails comFailLockedEnv ∧
    (wWinMain comFailLockedEnv oldLogFS).exit = some EXIT_FAILURE ∧
    (wWinMain comFailLockedEnv oldLogFS).fs.files
        "C:\\Users\\u\\Documents\\IoT DevKit\\crash_native.txt" =
      some "[2023-12-31 23:59:59] NATIVE CRASH: earlier\n\n" ∧
    ¬ EntryAppended comFailLockedEnv.crashLog "Failed to CoInitializeEx" oldLogFS
        (wWinMain comFailLockedEnv oldLogFS).fs := by
  have hfs : (wWinMain comFailLockedEnv oldLogFS).fs.files = oldLogFS.files := by
    rw [wWinMain_comInitFails _ _ comFailLockedEnv_comInitFails]
    exact WriteNativeCrashLog_skips _ _ _ (Or.inr rfl)
  refine ⟨comFailLockedEnv_comInitFails, ?_, ?_, ?_⟩
  · rw [wWinMain_comInitFails _ _ comFailLockedEnv_comInitFails]
  · rw [hfs]; rfl
  · rintro ⟨errorMsg, -, h⟩
    rw [hfs] at h
    have hold : oldLogFS.files (crashLogPath comFailLockedEnv.crashLog.folderPath) =
        some "[2023-12-31 23:59:59] NATIVE CRASH: earlier\n\n" := rfl
    rw [hold] at h
    have hlen := congrArg String.length (Option.some.inj h)
    have hpos := crashRecord_length_pos comFailLockedEnv.crashLog.localTime errorMsg
    simp only [Option.getD_some, String.length_append] at hlen
    omega

/-- C2, amended: in each failure category — `CoInitializeEx` fails, `window.Create` fails,
a `std::exception` with message `m` is thrown, anything else is thrown — `wWinMain`
returns the nonzero `EXIT_FAILURE` and calls `WriteNativeCrashLog`; when the documents
folder resolves and the log file opens, an entry is appended to `crash_native.txt` that
contains "Failed to CoInitializeEx", "Failed to create Flutter window", `m`, and
"Unknown C++ Exception" respectively. -/
theorem failure_exit_and_crash_entry (env : Env) (fs : FileSystem) :
    (ComInitFails env →
      (wWinMain env fs).exit = some EXIT_FAILURE ∧
      Event.writeNativeCrashLog "Failed to CoInitializeEx" ∈ (wWinMain env fs).trace ∧
      (SUCCEEDED env.crashLog.folderResult = true → env.crashLog.opens = true →
        EntryAppended env.crashLog "Failed to CoInitializeEx" fs (wWinMain env fs).fs)) ∧
    (WindowCreateFails env →
      (wWinMain env fs).exit = some EXIT_FAILURE ∧
      Event.writeNativeCrashLog "Failed to create Flutter window" ∈ (wWinMain env fs).trace ∧
      (SUCCEEDED env.crashLog.folderResult = true → env.crashLog.opens = true →
        EntryAppended env.crashLog "Failed to create Flutter window" fs (wWinMain env fs).fs)) ∧
    (∀ m, Raises env (Fault.stdException m) →
      (wWinMain env fs).exit = some EXIT_FAILURE ∧
      Event.writeNativeCrashLog ("std::exception: " ++ m) ∈ (wWinMain env fs).trace ∧
      (SUCCEEDED env.crashLog.folderResult = true → env.crashLog.opens = true →
        EntryAppended env.crashLog m fs (wWinMain env fs).fs)) ∧
    (Raises env Fault.other →
      (wWinMain env fs).exit = some EXIT_FAILURE ∧
      Event.writeNativeCrashLog "Unknown C++ Exception (SEH or other)" ∈
        (wWinMain env fs).trace ∧
      (SUCCEEDED env.crashLog.folderResult = true → env.crashLog.opens = true →
        EntryAppended env.crashLog "Unknown C++ Exception" fs (wWinMain env fs).fs)) ∧
    EXIT_FAILURE ≠ 0 := by
  refine ⟨?_, ?_, ?_, ?_, by decide⟩
  · intro h
    rw [wWinMain_comInitFails env fs h]
    exact ⟨rfl, by simp, fun hfolder hopen =>
      entryAppended_of_write _ _ _ fs ⟨"", "", rfl⟩ hfolder hopen⟩
  · intro h
    obtain ⟨args, ha⟩ := h.1.2.2.1
    rw [wWinMain_windowCreateFails env fs args h ha]
    exact ⟨rfl, by simp, fun hfolder hopen =>
      entryAppended_of_write _ _ _ fs ⟨"", "", rfl⟩ hfolder hopen⟩
  · intro m h
    obtain ⟨t, -, heq⟩ := wWinMain_raises_std env fs m h
    rw [heq]
    exact ⟨rfl, by simp, fun hfolder hopen =>
      entryAppended_of_write _ _ _ fs ⟨"std::exception: ", "", by simp⟩ hfolder hopen⟩
  · intro h
    obtain ⟨t, -, heq⟩ := wWinMain_raises_other env fs h
    rw [heq]
    exact ⟨rfl, by simp, fun hfolder hopen =>
      entryAppended_of_write _ _ _ fs ⟨"", " (SEH or other)", rfl⟩ hfolder hopen⟩

theorem failure_exit_and_crash_entry_witness :
    ComInitFails comFailEnv ∧ SUCCEEDED comFailEnv.crashLog.folderResult = true ∧
    comFailEnv.crashLog.opens = true ∧
    (wWinMain comFailEnv oldLogFS).exit = some EXIT_FAILURE ∧
    Event.writeNativeCrashLog "Failed to CoInitializeEx" ∈ (wWinMain comFailEnv oldLogFS).trace ∧
    EntryAppended comFailEnv.crashLog "Failed to CoInitializeEx" oldLogFS
      (wWinMain comFailEnv oldLogFS).fs :=
  have h := (failure_exit_and_crash_entry comFailEnv oldLogFS).1 comFailEnv_comInitFails
  ⟨comFailEnv_comInitFails, rfl, rfl, h.1, h.2.1, h.2.2 rfl rfl⟩

theorem message_box_iff_caught_fault_witness :
    Raises stdFaultEnv (Fault.stdException "engine failed") ∧
    (wWinMain stdFaultEnv emptyFS).trace.filter Event.isMessageBox =
      [Event.messageBox "engine failed" "IoT DevKit Native Crash" (MB_OK ||| MB_ICONERROR)] :=
  ⟨stdFaultEnv_raises,
    (message_box_iff_caught_fault stdFaultEnv emptyFS).2.2.1 "engine failed" stdFaultEnv_raises⟩

/-- C6, as stated, fails: the log file holds one record and `WriteNativeCrashLog` is called
once while the file cannot be opened; the file then still holds exactly that record, not
that record followed by the record of the call. -/
theorem locked_call_adds_no_record :
    oldLogFS.files "C:\\Users\\u\\Documents\\IoT DevKit\\crash_native.txt" =
      some "[2023-12-31 23:59:59] NATIVE CRASH: earlier\n\n" ∧
    (writeCrashLogs [(lockedLog, "again")] oldLogFS).files
        "C:\\Users\\u\\Documents\\IoT DevKit\\crash_native.txt" =
      some "[2023-12-31 23:59:59] NATIVE CRASH: earlier\n\n" ∧
    (writeCrashLogs [(lockedLog, "again")] oldLogFS).files
        "C:\\Users\\u\\Documents\\IoT DevKit\\crash_native.txt" ≠
      some ("[2023-12-31 23:59:59] NATIVE CRASH: earlier\n\n" ++
        recordsText [(lockedLog, "again")]) := by
  refine ⟨rfl, rfl, ?_⟩
  decide

/-- C6, amended: whatever the log file held before (`c`) and whatever the sequence of calls
of `WriteNativeCrashLog`, the file afterwards holds `c` followed by the records, in call
order, of the calls that resolved the documents folder and opened the file — one record
for each such call, none for the others; `c` stays a prefix, and when every call opens
the file the content is `c` followed by all the records. -/
theorem crash_log_is_append_only (calls : List (CrashLogEnv × String)) (fs : FileSystem)
    (path c : String) (h : fs.files path = some c) :
    (writeCrashLogs calls fs).files path =
      some (c ++ recordsText (calls.filter (reachesFile path))) ∧
    ((∀ call ∈ calls, reachesFile path call = true) →
      (writeCrashLogs calls fs).files path = some (c ++ recordsText calls)) := by
  refine ⟨writeCrashLogs_files calls fs path c h, fun hall => ?_⟩
  rw [writeCrashLogs_files calls fs path c h, List.filter_eq_self.2 hall]

theorem crash_log_is_append_only_witness :
    oldLogFS.files "C:\\Users\\u\\Documents\\IoT DevKit\\crash_native.txt" =
      some "[2023-12-31 23:59:59] NATIVE CRASH: earlier\n\n" ∧
    (writeCrashLogs [(sampleLog, "first"), (lockedLog, "second"), (sampleLog, "third")]
        oldLogFS).files "C:\\Users\\u\\Documents\\IoT DevKit\\crash_native.txt" =
      some ("[2023-12-31 23:59:59] NATIVE CRASH: earlier\n\n" ++
        "[2024-1-5 3:4:5] NATIVE CRASH: first\n\n" ++
        "[2024-1-5 3:4:5] NATIVE CRASH: third\n\n") :=
  ⟨rfl, (crash_log_is_append_only
    [(sampleLog, "first"), (lockedLog, "second"), (sampleLog, "third")] oldLogFS
    "C:\\Users\\u\\Documents\\IoT DevKit\\crash_native.txt"
    "[2023-12-31 23:59:59] NATIVE CRASH: earlier\n\n" rfl).1⟩

/-- C7: in every run, a list passed to `set_dart_entrypoint_arguments` is the list that
`GetCommandLineArguments()` returned; and whenever the run gets there (COM
initialisation succeeded, the project was constructed, the list was returned), the trace
holds exactly one such call, it carries exactly the returned list, and neither the
`FlutterWindow` constructor nor `window.Create` comes before it. -/
theorem arguments_forwarded_unchanged (env : Env) (fs : FileSystem) :
    (∀ l, Event.setDartEntrypointArguments l ∈ (wWinMain env fs).trace →
      env.getCommandLineArguments = Outcome.ret l) ∧
    (∀ args, FAILED env.coInitializeEx = false → env.dartProject = Outcome.ret () →
      env.getCommandLineArguments = Outcome.ret args →
      ∃ before after,
        (wWinMain env fs).trace = before ++ Event.setDartEntrypointArguments args :: after ∧
        (∀ e ∈ before, e.isSetArguments = false ∧ e.isWindowCreation = false) ∧
        (∀ e ∈ after, e.isSetArguments = false)) := by
  have hsecond : ∀ args, FAILED env.coInitializeEx = false → env.dartProject = Outcome.ret () →
      env.getCommandLineArguments = Outcome.ret args →
      ∃ before after,
        (wWinMain env fs).trace = before ++ Event.setDartEntrypointArguments args :: after ∧
        (∀ e ∈ before, e.isSetArguments = false ∧ e.isWindowCreation = false) ∧
        (∀ e ∈ after, e.isSetArguments = false) := by
    intro args h1 h2 h3
    obtain ⟨rest, hrest, heq⟩ := trace_after_arguments env fs args h1 h2 h3
    refine ⟨prefixTrace env ++ [Event.dartProject "data", Event.getCommandLineArguments], rest,
      heq, ?_, ?_⟩
    · intro e he
      rcases List.mem_append.1 he with he | he
      · have := prefixTrace_isStartup env e he
        cases e <;> simp_all [Event.isStartup, Event.isSetArguments, Event.isWindowCreation]
      · simp at he
        rcases he with rfl | rfl <;> exact ⟨rfl, rfl⟩
    · intro e he
      have := hrest e he
      cases e <;> simp_all [Event.isAfterArguments, Event.isSetArguments]
  refine ⟨?_, hsecond⟩
  intro l hl
  cases h1 : FAILED env.coInitializeEx
  swap
  · exact absurd (no_arguments_call env fs (Or.inl h1) _ hl) (by simp [Event.isSetArguments])
  cases h2 : env.dartProject with
  | raise f =>
    exact absurd (no_arguments_call env fs (Or.inr (Or.inl ⟨f, h2⟩)) _ hl)
      (by simp [Event.isSetArguments])
  | ret u =>
    cases h3 : env.getCommandLineArguments with
    | raise f =>
      exact absurd (no_arguments_call env fs (Or.inr (Or.inr ⟨f, h3⟩)) _ hl)
        (by simp [Event.isSetArguments])
    | ret args =>
      obtain ⟨before, after, heq, hb, ha⟩ := hsecond args h1 h2 h3
      rw [heq] at hl
      rcases List.mem_append.1 hl with hl | hl
      · exact absurd (hb _ hl).1 (by simp [Event.isSetArguments])
      · rcases List.mem_cons.1 hl with hl | hl
        · cases hl; rfl
        · exact absurd (ha _ hl) (by simp [Event.isSetArguments])

theorem arguments_forwarded_unchanged_witness :
    FAILED sampleEnv.coInitializeEx = false ∧ sampleEnv.dartProject = Outcome.ret () ∧
    sampleEnv.getCommandLineArguments = Outcome.ret ["--verbose", "a b"] ∧
    ∃ before after,
      (wWinMain sampleEnv emptyFS).trace =
        before ++ Event.setDartEntrypointArguments ["--verbose", "a b"] :: after ∧
      (∀ e ∈ before, e.isSetArguments = false ∧ e.isWindowCreation = false) ∧
      (∀ e ∈ after, e.isSetArguments = false) :=
  ⟨rfl, rfl, rfl,
    (arguments_forwarded_unchanged sampleEnv emptyFS).2 ["--verbose", "a b"] rfl rfl rfl⟩

/-- C8: the result of `CreateMutex` is never acted on: two runs that differ only in it — a
fresh handle, a handle to a mutex that exists already, or `NULL` — have the same exit
code, the same file system afterwards and the same sequence of calls (logger, dialogs
and all later steps included); in particular a second instance is not stopped: where a
first instance would run to a normal quit, the instance that finds the mutex existing
creates its window and runs to the same normal quit. -/
theorem mutex_result_is_ignored (env : Env) (fs : FileSystem) :
    (∀ r1 r2 : MutexResult,
      wWinMain { env with createMutex := r1 } fs = wWinMain { env with createMutex := r2 } fs) ∧
    (NormalQuit env → ∀ handle : Nat,
      (wWinMain { env with createMutex := MutexResult.alreadyExists handle } fs).exit =
        some EXIT_SUCCESS ∧
      Event.windowCreate "iot_devkit" 10 10 1280 720 ∈
        (wWinMain { env with createMutex := MutexResult.alreadyExists handle } fs).trace) := by
  refine ⟨fun _ _ => rfl, fun h handle => ?_⟩
  have h' : NormalQuit { env with createMutex := MutexResult.alreadyExists handle } := h
  obtain ⟨args, ha⟩ := h.1.1.2.2.1
  obtain ⟨pre, q, post, hqueue, hpre, hq⟩ := h.2
  rw [wWinMain_normalQuit _ fs args pre q post h'.1 ha hqueue hpre hq]
  exact ⟨rfl, by simp [buildTrace]⟩

theorem mutex_result_is_ignored_witness :
    NormalQuit sampleEnv ∧
    (wWinMain { sampleEnv with createMutex := MutexResult.alreadyExists 7 } emptyFS).exit =
      some EXIT_SUCCESS ∧
    Event.windowCreate "iot_devkit" 10 10 1280 720 ∈
      (wWinMain { sampleEnv with createMutex := MutexResult.alreadyExists 7 } emptyFS).trace :=
  ⟨sampleEnv_normalQuit, (mutex_result_is_ignored sampleEnv emptyFS).2 sampleEnv_normalQuit 7⟩

/-- C9: `CreateAndAttachConsole` is called exactly when `AttachConsole` returned 0 and
`IsDebuggerPresent` returned nonzero; it then comes third in the trace, after these two
calls and before `CreateMutex`, `CoInitializeEx` and every later call; when
`AttachConsole` succeeds neither `IsDebuggerPresent` nor `CreateAndAttachConsole` is
called; and the exit code is the same whatever the console statement is answered. -/
theorem console_created_iff_no_parent_and_debugger (env : Env) (fs : FileSystem) :
    (Event.createAndAttachConsole ∈ (wWinMain env fs).trace ↔
      env.attachConsole = 0 ∧ env.isDebuggerPresent ≠ 0) ∧
    (env.attachConsole = 0 → env.isDebuggerPresent ≠ 0 →
      ∃ rest, (wWinMain env fs).trace =
        Event.attachConsole :: Event.isDebuggerPresent :: Event.createAndAttachConsole ::
          Event.createMutex "IoTDevKit_Instance_Mutex" :: Event.coInitializeEx :: rest ∧
        ∀ e ∈ rest, e.isStartup = false) ∧
    (env.attachConsole ≠ 0 →
      Event.isDebuggerPresent ∉ (wWinMain env fs).trace ∧
      Event.createAndAttachConsole ∉ (wWinMain env fs).trace) ∧
    (∀ (a d : Int) (c : Bool),
      (wWinMain { env with attachConsole := a, isDebuggerPresent := d, consoleAllocated := c }
        fs).exit = (wWinMain env fs).exit) := by
  obtain ⟨rest, heq, hrest⟩ := trace_after_prefix env fs
  have hc : Event.createAndAttachConsole ∉ rest := fun h => by
    have := hrest _ h
    simp [Event.isStartup] at this
  have hd : Event.isDebuggerPresent ∉ rest := fun h => by
    have := hrest _ h
    simp [Event.isStartup] at this
  rw [heq]
  refine ⟨?_, ?_, ?_, exit_console_independent env fs⟩
  · by_cases ha : env.attachConsole = 0 <;> by_cases hdb : env.isDebuggerPresent = 0 <;>
      simp [prefixTrace, consoleTrace, consoleStep, CreateAndAttachConsole, State.call, ha, hdb, hc]
  · intro ha hdb
    exact ⟨rest, by simp [prefixTrace, consoleTrace, consoleStep, CreateAndAttachConsole, State.call, ha, hdb], hrest⟩
  · intro ha
    simp [prefixTrace, consoleTrace, consoleStep, CreateAndAttachConsole, State.call, ha, hc, hd]

theorem console_created_iff_no_parent_and_debugger_witness :
    sampleEnv.attachConsole = 0 ∧ sampleEnv.isDebuggerPresent ≠ 0 ∧
    ∃ rest, (wWinMain sampleEnv emptyFS).trace =
      Event.attachConsole :: Event.isDebuggerPresent :: Event.createAndAttachConsole ::
        Event.createMutex "IoTDevKit_Instance_Mutex" :: Event.coInitializeEx :: rest ∧
      ∀ e ∈ rest, e.isStartup = false :=
  ⟨rfl, by decide,
    (console_created_iff_no_parent_and_debugger sampleEnv emptyFS).2.1 rfl (by decide)⟩

/-- C10: when `GetMessage` returns nonzero results for the messages `msgs` (each one
dispatched before the next call) and then 0, the loop performs for each message in
order `GetMessage`, `TranslateMessage`, `DispatchMessage` on that message, then the
`GetMessage` that returns 0 with nothing translated or dispatched for it, and the run
calls `CoUninitialize` once and returns 0.  Any nonzero result, -1 included, is
translated and dispatched and the loop goes on; the loop is left by `quit` only if some
result was 0. -/
theorem message_loop_runs_until_quit (msgs : List QueueItem) (q : QueueItem)
    (post : List QueueItem) (hmsgs : AllDispatched msgs) (hq : q.result = 0) :
    (∀ st, messageLoop (msgs ++ q :: post) st =
      ({ trace := st.trace ++ loopTrace msgs ++ [Event.getMessage], fs := st.fs },
        LoopEnd.quit)) ∧
    (∀ env fs, ReachesLoop env → env.queue = msgs ++ q :: post →
      (wWinMain env fs).exit = some 0 ∧
      (∃ args, (wWinMain env fs).trace =
        prefixTrace env ++ buildTrace args ++ [Event.setQuitOnClose true] ++
          loopTrace msgs ++ [Event.getMessage, Event.coUninitialize]) ∧
      (wWinMain env fs).trace.count Event.coUninitialize = 1) ∧
    (∀ (r : Int) (m : MSG) (rest : List QueueItem) (st : State), r ≠ 0 →
      messageLoop ({ result := r, msg := m, dispatch := Outcome.ret () } :: rest) st =
        messageLoop rest
          { trace := st.trace ++
              [Event.getMessage, Event.translateMessage m, Event.dispatchMessage m],
            fs := st.fs }) ∧
    (∀ (m : MSG) (rest : List QueueItem) (st : State),
      messageLoop ({ result := -1, msg := m, dispatch := Outcome.ret () } :: rest) st =
        messageLoop rest
          { trace := st.trace ++
              [Event.getMessage, Event.translateMessage m, Event.dispatchMessage m],
            fs := st.fs }) ∧
    (∀ (queue : List QueueItem) (st : State), (messageLoop queue st).2 = LoopEnd.quit →
      ∃ m ∈ queue, m.result = 0) := by
  have hstep : ∀ (r : Int) (m : MSG) (rest : List QueueItem) (st : State), r ≠ 0 →
      messageLoop ({ result := r, msg := m, dispatch := Outcome.ret () } :: rest) st =
        messageLoop rest
          { trace := st.trace ++
              [Event.getMessage, Event.translateMessage m, Event.dispatchMessage m],
            fs := st.fs } := by
    intro r m rest st hr
    simp [messageLoop, hr, State.call]
  refine ⟨fun st => messageLoop_quit msgs q post st hmsgs hq, ?_, hstep,
    fun m rest st => hstep (-1) m rest st (by decide), ?_⟩
  · intro env fs hreach hqueue
    obtain ⟨args, ha⟩ := hreach.1.2.2.1
    rw [wWinMain_normalQuit env fs args msgs q post hreach ha hqueue hmsgs hq]
    refine ⟨rfl, ⟨args, rfl⟩, ?_⟩
    have h1 : (prefixTrace env).count Event.coUninitialize = 0 :=
      List.count_eq_zero.2 fun h =>
        absurd (prefixTrace_isStartup env _ h) (by simp [Event.isStartup])
    have h2 : (loopTrace msgs).count Event.coUninitialize = 0 :=
      List.count_eq_zero.2 fun h => by
        simp only [loopTrace, List.mem_flatMap] at h
        obtain ⟨m, -, hm⟩ := h
        simp at hm
    simp [List.count_append, h1, h2, buildTrace, List.count_cons]
  · intro queue
    induction queue with
    | nil => intro st h; simp [messageLoop] at h
    | cons m rest ih =>
      intro st h
      by_cases h0 : m.result = 0
      · exact ⟨m, List.mem_cons_self _ _, h0⟩
      · cases hd : m.dispatch with
        | raise f => simp [messageLoop, h0, hd] at h
        | ret u =>
          simp only [messageLoop, h0, hd, ne_eq, not_false_eq_true, if_true] at h
          obtain ⟨x, hx, hx0⟩ := ih _ h
          exact ⟨x, List.mem_cons_of_mem _ hx, hx0⟩

theorem message_loop_runs_until_quit_witness :
    AllDispatched [{ result := 1, msg := keyMsg, dispatch := Outcome.ret () }] ∧
    (wWinMain sampleEnv emptyFS).exit = some 0 ∧
    (∃ args, (wWinMain sampleEnv emptyFS).trace =
      prefixTrace sampleEnv ++ buildTrace args ++ [Event.setQuitOnClose true] ++
        loopTrace [{ result := 1, msg := keyMsg, dispatch := Outcome.ret () }] ++
        [Event.getMessage, Event.coUninitialize]) ∧
    (wWinMain sampleEnv emptyFS).trace.count Event.coUninitialize = 1 :=
  have hall : AllDispatched [{ result := 1, msg := keyMsg, dispatch := Outcome.ret () }] := by
    intro m hm
    simp at hm
    subst hm
    exact ⟨by decide, rfl⟩
  ⟨hall, (message_loop_runs_until_quit
    [{ result := 1, msg := keyMsg, dispatch := Outcome.ret () }]
    { result := 0, msg := quitMsg, dispatch := Outcome.ret () } [] hall rfl).2.1
    sampleEnv emptyFS sampleEnv_normalQuit.1 rfl⟩

end Runner
